import Mathlib

/-!
# Duplicate finder (`main_cli.cpp`): similarity scoring

A shallow embedding of `SimilarityFinder`, of the grouping methods of
`FileScanner` and of `main` from `src/main_cli.cpp`.

Modelling conventions
* a `std::string` is a list of characters (`Str`), one element per `char`;
* `double` scores are exact rationals (`ℚ`), without the rounding of `double`
  arithmetic; the only place where the source can produce a NaN (`0/0` in a size
  ratio) is modelled by `Option ℚ`, `none` being NaN;
* the `int` variables `common` and `total` of `calculateStringSimilarity` are
  integers that wrap around modulo `2^32` (`toInt32`); the other `int`, `size_t`
  and `uint64_t` values are natural numbers, and the places where their width
  matters are stated as bounds in the theorems;
* the outside world (image decoder, helper processes, file contents) is a record
  `Env` of functions passed to the operations that use it; the directory scan
  and the content digest are function parameters of `main`;
* the scan of `findSimilarFiles` keeps, beside the program variables, the input
  position of every record it copies and a log of its calls of `areFilesSimilar`;
* standard output is the list of the lines written.
-/

namespace PyMediaDownloader

/-- A `std::string`: the sequence of its `char`s. -/
abbrev Str := List Char

/-! ## Library routines used by the source -/

/-- The C `tolower` in the "C" locale: `A`..`Z` go to `a`..`z`, every other
character is left alone. -/
def tolower (c : Char) : Char := c.toLower

/-- The `std::transform(s.begin(), s.end(), s.begin(), ::tolower)` idiom. -/
def toLowerStr (s : Str) : Str := s.map tolower

/-- Whether `pat` occurs in `s` starting at its first character. -/
def startsWith : Str → Str → Bool
  | _, [] => true
  | [], _ :: _ => false
  | c :: s, p :: pat => c == p && startsWith s pat

/-- The `std::string::find(pat)` routine: the first position at which `pat`
occurs in `s`, `none` standing for `std::string::npos`. -/
def find : Str → Str → Option Nat
  | [], pat => if pat = [] then some 0 else none
  | c :: s, pat =>
    if startsWith (c :: s) pat then some 0
    else (find s pat).map (· + 1)

/-! ## `SimilarityFinder::calculateStringSimilarity` -/

/-- Conversion of an integer to `int`: its value modulo `2^32`, taken in the
range `-2^31 .. 2^31 - 1`. An `int` that overflows wraps around in this way. -/
def toInt32 (n : Int) : Int := (n + 2 ^ 31) % 2 ^ 32 - 2 ^ 31

/-- The inner loop `for (char c2 : s2_lower) if (c1 == c2) common++`, on the
variable `int common`. -/
def countInner (c1 : Char) (s2_lower : Str) (common : Int) : Int :=
  s2_lower.foldl (fun common c2 => if c1 = c2 then toInt32 (common + 1) else common) common

/-- The nested loops of `calculateStringSimilarity`, started at `common`. -/
def countCommon (s1_lower s2_lower : Str) (common : Int) : Int :=
  s1_lower.foldl (fun common c1 => countInner c1 s2_lower common) common

/-- The method `SimilarityFinder::calculateStringSimilarity` (lines 125-143). -/
def calculateStringSimilarity (s1 s2 : Str) : ℚ :=
  let s1_lower := toLowerStr s1
  let s2_lower := toLowerStr s2
  if s1_lower = s2_lower then 1
  else if find s1_lower s2_lower ≠ none then 8 / 10
  else if find s2_lower s1_lower ≠ none then 8 / 10
  else
    let common := countCommon s1_lower s2_lower 0
    let total := toInt32 ((s1_lower.length + s2_lower.length : Nat) : Int)
    if total > 0 then (2 * (common : ℚ)) / (total : ℚ) else 0

/-! ## Records and the outside world -/

/-- The record `FileInfo` (lines 37-45). The fields `content_preview`, `phash`
and `audio_meta` are never read by the program and are left out. -/
structure FileInfo where
  path : Str
  size_bytes : Nat
  type : String
  similarity_score : ℚ := 0
  deriving DecidableEq

/-- A decoded single-channel image as `stbi_load(path, &width, &height, &channels, 1)`
hands it back: `width * height` samples, row after row. -/
structure Image where
  width : Nat
  height : Nat
  img : List Nat

/-- The external collaborators of `SimilarityFinder`. -/
structure Env where
  /-- `stbi_load`: the decoded image, `none` for a null pointer. -/
  stbi_load : Str → Option Image
  /-- `fs::current_path().string()`. -/
  current_path : Str
  /-- `system(command)`: the status the shell command returns. -/
  system : Str → Int
  /-- The lines `std::getline` reads from the file at a path, `none` when the
  stream cannot be opened. -/
  getlines : Str → Option (List Str)

/-- The member `fs::path::filename` for a path in the generic format: what
follows the last `/`. -/
def filename (p : Str) : Str :=
  p.foldl (fun acc c => if c = '/' then [] else acc ++ [c]) []

/-- Position of the last `.` of a string, if there is one. -/
def rfindDot (s : Str) : Option Nat :=
  (List.range s.length).foldl
    (fun acc i => if s.getD i ' ' = '.' then some i else acc) none

/-- The member `fs::path(p).stem().string()`: the file name without its last
extension; a file name that is `.` or `..`, has no `.`, or whose only `.` is
its first character, is returned whole. -/
def stem (p : Str) : Str :=
  let f := filename p
  if f = ['.'] ∨ f = ['.', '.'] then f
  else match rfindDot f with
    | none => f
    | some 0 => f
    | some (i + 1) => f.take (i + 1)

/-! ## Perceptual hash -/

def hashWidth : Nat := 9

def hashHeight : Nat := 8

/-- A counted loop `for (int i = 0; i < n; i++) s = body(i, s)`. -/
def forLoop {σ : Type} (n : Nat) (body : Nat → σ → σ) (init : σ) : σ :=
  (List.range n).foldl (fun s i => body i s) init

/-- First loop nest of `calculateImageHash` (lines 87-93): the array `resized`
after the nearest-pixel downsampling, starting from the contents `resized0`. -/
def resize (g : Image) (resized0 : List Nat) : List Nat :=
  forLoop hashHeight (fun y resized =>
    forLoop hashWidth (fun x resized =>
      let srcX := x * g.width / hashWidth
      let srcY := y * g.height / hashHeight
      resized.set (y * hashWidth + x) (g.img.getD (srcY * g.width + srcX) 0))
      resized) resized0

/-- Second loop nest of `calculateImageHash` (lines 97-110): the pair
`(hash, bitIndex)` after it. -/
def packBits (resized : List Nat) : Nat × Nat :=
  forLoop hashHeight (fun y st =>
    forLoop (hashWidth - 1) (fun x st =>
      let left := resized.getD (y * hashWidth + x) 0
      let right := resized.getD (y * hashWidth + (x + 1)) 0
      let hash := if left < right then st.1 ||| (1 <<< st.2) else st.1
      (hash, st.2 + 1)) st) (0, 0)

/-- The hash of a decoded image: lines 83-112 of `calculateImageHash`. The
local array `resized` starts with arbitrary contents, here zeros. -/
def imageHash (g : Image) : Nat :=
  (packBits (resize g (List.replicate (hashWidth * hashHeight) 0))).1

/-- The method `SimilarityFinder::calculateImageHash` (lines 77-113). -/
def calculateImageHash (env : Env) (imagePath : Str) : Nat :=
  match env.stbi_load imagePath with
  | none => 0
  | some g => imageHash g

/-- The loop `while (diff) { distance += diff & 1; diff >>= 1; }`. -/
def hammingLoop (diff distance : Nat) : Nat :=
  if h : diff = 0 then distance
  else hammingLoop (diff >>> 1) (distance + (diff &&& 1))
termination_by diff
decreasing_by
  simp only [Nat.shiftRight_eq_div_pow, pow_one]
  exact Nat.div_lt_self (Nat.pos_of_ne_zero h) (by decide)

/-- The method `SimilarityFinder::hammingDistance` (lines 115-123). -/
def hammingDistance (hash1 hash2 : Nat) : Nat :=
  let diff := hash1 ^^^ hash2
  hammingLoop diff 0

/-! ## Text similarity -/

/-- The method `SimilarityFinder::extractTextContent` (lines 145-160): the first
50 lines of a document, each followed by a newline. -/
def extractTextContent (env : Env) (file : FileInfo) : Str :=
  if file.type = "document" then
    match env.getlines file.path with
    | none => []
    | some lines =>
      (lines.take 50).foldl (fun content line => content ++ (line ++ ['\n'])) []
  else []

/-- The C `isspace` in the "C" locale. -/
def isspace (c : Char) : Bool :=
  c = ' ' || c = '\t' || c = '\n' || c = '\x0b' || c = '\x0c' || c = '\r'

/-- The C `isalnum` in the "C" locale. -/
def isalnum (c : Char) : Bool := c.isAlphanum

/-- The words `ss >> word` reads from a `std::stringstream`: the maximal runs of
characters that are not white space. -/
def tokens (text : Str) : List Str :=
  (text.splitOnP isspace).filter (fun w => w ≠ [])

/-- The method `SimilarityFinder::extractWords` (lines 162-176); a
`std::set<std::string>` is a finite set of strings. -/
def extractWords (text : Str) : Finset Str :=
  (tokens text).foldl (fun words word =>
    let word := word.filter isalnum
    let word := toLowerStr word
    if word.length > 2 then insert word words else words) ∅

/-- The method `SimilarityFinder::calculateTextSimilarity` (lines 178-191). The
loop counts the members of `words1` that `words2` contains. -/
def calculateTextSimilarity (text1 text2 : Str) : ℚ :=
  if text1 = [] ∨ text2 = [] then 0
  else
    let words1 := extractWords text1
    let words2 := extractWords text2
    let common := (words1.filter (fun word => word ∈ words2)).card
    let total := words1.card + words2.card - common
    if total > 0 then (common : ℚ) / (total : ℚ) else 0

/-! ## Per-category comparison -/

/-- The expression `(double)std::min(a, b) / std::max(a, b)`; `none` is the NaN
of `0.0 / 0`, which arises exactly when both sizes are zero. -/
def sizeRatio (a b : Nat) : Option ℚ :=
  if max a b = 0 then none else some ((min a b : ℚ) / (max a b : ℚ))

/-- The shell command of a helper comparer (the branch taken when `_WIN32` is
not defined). -/
def helperCommand (currentDir script path1 path2 : Str) : Str :=
  "cd \"".toList ++ currentDir ++ "\" && python3 ".toList ++ script ++ " \"".toList
    ++ path1 ++ "\" \"".toList ++ path2 ++ "\" 2>/dev/null".toList

/-- The method `SimilarityFinder::areExcelSimilar` (lines 52-75). A NaN size
ratio fails the comparison `sizeRatio > 0.8`. -/
def areExcelSimilar (env : Env) (xls1 xls2 : FileInfo) : Bool × ℚ :=
  let currentDir := env.current_path
  let command := helperCommand currentDir "excel_comparer.py".toList xls1.path xls2.path
  let result := env.system command
  if result ≠ 0 then
    let name1 := stem xls1.path
    let name2 := stem xls2.path
    let nameSim := calculateStringSimilarity name1 name2
    match sizeRatio xls1.size_bytes xls2.size_bytes with
    | none => (false, 0)
    | some sizeRatio =>
      let similar : Bool := decide (sizeRatio > 8 / 10) && decide (nameSim > 7 / 10)
      (similar, if similar then (sizeRatio + nameSim) / 2 else 0)
  else (decide (result = 0), 85 / 100)

/-- The method `SimilarityFinder::areWordSimilar` (lines 280-299). -/
def areWordSimilar (env : Env) (doc1 doc2 : FileInfo) : Bool × ℚ :=
  let currentDir := env.current_path
  let command := helperCommand currentDir "word_comparer.py".toList doc1.path doc2.path
  let result := env.system command
  if result ≠ 0 then
    let name1 := stem doc1.path
    let name2 := stem doc2.path
    let nameSim := calculateStringSimilarity name1 name2
    (decide (nameSim > 7 / 10), nameSim)
  else (decide (result = 0), 85 / 100)

/-- The method `SimilarityFinder::arePowerPointSimilar` (lines 301-312). -/
def arePowerPointSimilar (env : Env) (ppt1 ppt2 : FileInfo) : Bool × ℚ :=
  let currentDir := env.current_path
  let command :=
    helperCommand currentDir "powerpoint_comparer.py".toList ppt1.path ppt2.path
  let result := env.system command
  (decide (result = 0), if result = 0 then 85 / 100 else 0)

/-- The test `path.find(ext) != std::string::npos`. -/
def contains (path : Str) (ext : String) : Bool :=
  (find path ext.toList).isSome

/-- The method `SimilarityFinder::areDocumentsSimilar` (lines 193-233). A NaN
size ratio fails the comparison `sizeRatio < 0.3`. -/
def areDocumentsSimilar (env : Env) (doc1 doc2 : FileInfo) : Bool × ℚ :=
  let tooSmall : Bool :=
    match sizeRatio doc1.size_bytes doc2.size_bytes with
    | none => false
    | some sizeRatio => decide (sizeRatio < 3 / 10)
  if tooSmall then (false, 0)
  else if (contains doc1.path ".xlsx" || contains doc1.path ".xls") &&
      (contains doc2.path ".xlsx" || contains doc2.path ".xls") then
    areExcelSimilar env doc1 doc2
  else if contains doc1.path ".docx" && contains doc2.path ".docx" then
    areWordSimilar env doc1 doc2
  else if contains doc1.path ".pptx" && contains doc2.path ".pptx" then
    arePowerPointSimilar env doc1 doc2
  else
    let name1 := stem doc1.path
    let name2 := stem doc2.path
    let nameSim := calculateStringSimilarity name1 name2
    if nameSim > 7 / 10 then (true, nameSim)
    else if contains doc1.path ".txt" || contains doc1.path ".csv" then
      let content1 := extractTextContent env doc1
      let content2 := extractTextContent env doc2
      let textSim := calculateTextSimilarity content1 content2
      (decide (textSim > 6 / 10), textSim)
    else (false, 0)

/-- The method `SimilarityFinder::areArchivesSimilar` (lines 235-245). -/
def areArchivesSimilar (arch1 arch2 : FileInfo) : Bool × ℚ :=
  let name1 := stem arch1.path
  let name2 := stem arch2.path
  let nameSim := calculateStringSimilarity name1 name2
  match sizeRatio arch1.size_bytes arch2.size_bytes with
  | none => (false, 0)
  | some sizeRatio =>
    let similar : Bool := decide (sizeRatio > 8 / 10) && decide (nameSim > 6 / 10)
    (similar, if similar then (sizeRatio + nameSim) / 2 else 0)

/-- The method `SimilarityFinder::areImagesSimilar` (lines 247-260). -/
def areImagesSimilar (env : Env) (img1 img2 : FileInfo) : Bool × ℚ :=
  let hash1 := calculateImageHash env img1.path
  let hash2 := calculateImageHash env img2.path
  if hash1 = 0 ∨ hash2 = 0 then (false, 0)
  else
    let distance := hammingDistance hash1 hash2
    let similarity : ℚ := 1 - (distance : ℚ) / 64
    let similar : Bool := decide (distance ≤ 10)
    (similar, if similar then similarity else 0)

/-- The method `SimilarityFinder::areAudioSimilar` (lines 262-278). -/
def areAudioSimilar (audio1 audio2 : FileInfo) : Bool × ℚ :=
  let name1 := stem audio1.path
  let name2 := stem audio2.path
  let name1_lower := toLowerStr name1
  let name2_lower := toLowerStr name2
  if name1_lower = name2_lower then (true, 1)
  else if name1_lower ++ ['1'] = name2_lower ∨ name2_lower ++ ['1'] = name1_lower then
    (true, 95 / 100)
  else if name1_lower ++ ['2'] = name2_lower ∨ name2_lower ++ ['2'] = name1_lower then
    (true, 95 / 100)
  else
    let nameSim := calculateStringSimilarity name1 name2
    (decide (nameSim > 9 / 10), nameSim)

/-- The method `SimilarityFinder::areFilesSimilar` (lines 314-328). -/
def areFilesSimilar (env : Env) (file1 file2 : FileInfo) : Bool × ℚ :=
  if file1.type ≠ file2.type then (false, 0)
  else if file1.type = "image" then areImagesSimilar env file1 file2
  else if file1.type = "audio" then areAudioSimilar file1 file2
  else if file1.type = "document" then areDocumentsSimilar env file1 file2
  else if file1.type = "other" then areArchivesSimilar file1 file2
  else (false, 0)

/-! ## `FileScanner` -/

instance : Inhabited FileInfo := ⟨{ path := [], size_bytes := 0, type := "" }⟩

/-- A `std::map<std::string, std::vector<FileInfo>>`: its entries, in key order. -/
abbrev HashMap := List (Str × List FileInfo)

/-- The order `std::less<std::string>`: lexicographic, by character code. -/
def strLess : Str → Str → Bool
  | [], [] => false
  | [], _ :: _ => true
  | _ :: _, [] => false
  | a :: s, b :: t =>
    if a.toNat < b.toNat then true else if a = b then strLess s t else false

/-- Insertion of an entry with a new key at its place in key order. -/
def insertEntry (e : Str × List FileInfo) : HashMap → HashMap
  | [] => [e]
  | e' :: m => if strLess e.1 e'.1 then e :: e' :: m else e' :: insertEntry e m

/-- The statement `duplicates[hash].push_back(file)`: the vector stored under
`hash` grows by `file`; a key that is not there yet gets a new entry. -/
def pushBack (duplicates : HashMap) (hash : Str) (file : FileInfo) : HashMap :=
  if duplicates.any (fun e => e.1 = hash) then
    duplicates.map (fun e => if e.1 = hash then (e.1, e.2 ++ [file]) else e)
  else insertEntry (hash, [file]) duplicates

/-- The method `FileScanner::findExactDuplicates` (lines 439-466). The method
`calculateHash` reads the file system and is a parameter: the digest of the
file at a path, the empty string when the file cannot be read. -/
def findExactDuplicates (calculateHash : Str → Str) (files : List FileInfo) : HashMap :=
  let duplicates := files.foldl (fun duplicates file =>
    let hash := calculateHash file.path
    if hash ≠ [] then pushBack duplicates hash file else duplicates) []
  duplicates.filter (fun e => ¬ (e.2.length < 2))

/-- One invocation of `areFilesSimilar` by `findSimilarFiles`: the two
positions compared and the vector `processed` at that moment. -/
structure Call where
  anchor : Nat
  candidate : Nat
  processed : List Bool

/-- The variables of the inner loop of `findSimilarFiles`. Each record of
`group` is kept with the position in `files` it was copied from, and `calls`
lists the invocations of `areFilesSimilar` made so far; neither is read by
the program. -/
structure GroupState where
  group : List (Nat × FileInfo)
  processed : List Bool
  calls : List Call

/-- The variables of the outer loop of `findSimilarFiles`. -/
structure ScanState where
  similarGroups : List (List (Nat × FileInfo))
  processed : List Bool
  calls : List Call

/-- Body of the inner loop of `findSimilarFiles` (lines 483-491). -/
def compareWith (env : Env) (files : List FileInfo) (i j : Nat) (st : GroupState) :
    GroupState :=
  if st.processed.getD j false = false then
    let r := areFilesSimilar env (files.getD i default) (files.getD j default)
    let calls := st.calls ++ [{ anchor := i, candidate := j, processed := st.processed }]
    if r.1 = true then
      let similarFile := { files.getD j default with similarity_score := r.2 }
      { group := st.group ++ [(j, similarFile)], processed := st.processed.set j true,
        calls := calls }
    else { st with calls := calls }
  else st

/-- Lines 477-492 of `findSimilarFiles`: the group of the anchor `files[i]`,
built by the loop `for (size_t j = i + 1; j < files.size(); j++)`. -/
def buildGroup (env : Env) (files : List FileInfo) (i : Nat) (processed : List Bool)
    (calls : List Call) : GroupState :=
  let firstFile := { files.getD i default with similarity_score := 1 }
  forLoop (files.length - (i + 1)) (fun k st => compareWith env files i (i + 1 + k) st)
    { group := [(i, firstFile)], processed := processed, calls := calls }

/-- Body of the outer loop of `findSimilarFiles` (lines 475-496). -/
def scanStep (env : Env) (files : List FileInfo) (i : Nat) (st : ScanState) : ScanState :=
  if st.processed.getD i false = true then st
  else
    let g := buildGroup env files i st.processed st.calls
    { similarGroups :=
        if g.group.length > 1 then st.similarGroups ++ [g.group] else st.similarGroups,
      processed := g.processed, calls := g.calls }

/-- The loops of `findSimilarFiles`, run to the end. -/
def scan (env : Env) (files : List FileInfo) : ScanState :=
  forLoop files.length (scanStep env files)
    { similarGroups := [], processed := List.replicate files.length false, calls := [] }

/-- The method `FileScanner::findSimilarFiles` (lines 468-506). -/
def findSimilarFiles (env : Env) (files : List FileInfo) : List (List FileInfo) :=
  (scan env files).similarGroups.map (fun group => group.map Prod.snd)

/-! ## `main` -/

/-- Rounding to the nearest integer, ties to the even one. -/
def roundHalfEven (x : ℚ) : Int :=
  let fl := ⌊x⌋
  let frac := x - fl
  if frac < 1 / 2 then fl
  else if 1 / 2 < frac then fl + 1
  else if fl % 2 = 0 then fl else fl + 1

/-- What `std::cout << std::fixed << std::setprecision(2) << x` writes for a
non-negative `x` that is a `double` exactly (a dyadic rational such as `1`,
`61/64` or `125/128`). The program rounds the `double` it holds; for a score
that is no `double` exactly, such as the mean of `1` and `0.95`, the last digit
written by the program can differ from the one given here. -/
def formatFixed2 (x : ℚ) : Str :=
  let n := (roundHalfEven (x * 100)).toNat
  (Nat.repr (n / 100)).toList ++ ['.', Nat.digitChar (n % 100 / 10), Nat.digitChar (n % 10)]

/-- Lines 530-538 of `main`: the lines written for the exact duplicates. -/
def printExact (exactDuplicates : HashMap) : List Str :=
  exactDuplicates.foldl (fun out e =>
    if e.2.length > 1 then
      out ++ ["EXACT|1.0".toList] ++ e.2.map (fun file => file.path) ++ ["---GROUP---".toList]
    else out) []

/-- Lines 541-546 of `main`: the set `exactDupPaths`. -/
def exactDupPaths (exactDuplicates : HashMap) : Finset Str :=
  exactDuplicates.foldl (fun paths e =>
    e.2.foldl (fun paths file => insert file.path paths) paths) ∅

/-- Lines 548-553 of `main`: the vector `filesForSimilarity`. -/
def filesForSimilarity (files : List FileInfo) (exactDuplicates : HashMap) : List FileInfo :=
  files.filter (fun file => file.path ∉ exactDupPaths exactDuplicates)

/-- Lines 559-563 of `main`: the value `avgScore` of a group. -/
def avgScore (group : List FileInfo) : ℚ :=
  group.foldl (fun avgScore file => avgScore + file.similarity_score) 0 / (group.length : ℚ)

/-- Lines 557-572 of `main`: the lines written for the similar groups. -/
def printSimilar (similarFiles : List (List FileInfo)) : List Str :=
  similarFiles.foldl (fun out group =>
    if group.length > 1 then
      out ++ ["SIMILAR|".toList ++ formatFixed2 (avgScore group)]
        ++ group.map (fun file => file.path ++ ['|'] ++ formatFixed2 file.similarity_score)
        ++ ["---GROUP---".toList]
    else out) []

/-- The function `main` (lines 511-576): the lines written to standard output
and the exit status. The directory scan `findFiles` and `calculateHash` are
parameters; what goes to standard error is left out. -/
def main (env : Env) (calculateHash : Str → Str) (findFiles : Str → List FileInfo)
    (argv : List Str) : List Str × Int :=
  if argv.length < 2 then ([], 1)
  else
    let directory := argv.getD 1 []
    let findSimilar : Bool := decide (argv.length ≥ 3) && decide (argv.getD 2 [] = "--similar".toList)
    let files := findFiles directory
    if files = [] then ([], 0)
    else
      let exactDuplicates := findExactDuplicates calculateHash files
      let out := printExact exactDuplicates
      if findSimilar then
        let similarFiles := findSimilarFiles env (filesForSimilarity files exactDuplicates)
        (out ++ printSimilar similarFiles, 0)
      else (out, 0)

/-! ## Notions used to state the properties -/

/-- Number of index pairs `(i, j)` at which the two strings carry the same
character. -/
def matchingPairs (a b : Str) : Nat :=
  (Finset.univ.filter (fun p : Fin a.length × Fin b.length => a.get p.1 = b.get p.2)).card

/-- Number of bit positions `0..63` in which two values differ. -/
def differingBits (h1 h2 : Nat) : Nat :=
  ((Finset.range 64).filter (fun i => h1.testBit i ≠ h2.testBit i)).card

/-- Number of set bits among the lowest `n` bits. -/
def setBits (n diff : Nat) : Nat :=
  ((List.range n).filter (fun i => diff.testBit i)).length

/-- The comparison `left < right` made at row `y`, column `x` of `resized`. -/
def lessAt (resized : List Nat) (y x : Nat) : Bool :=
  decide (resized.getD (y * hashWidth + x) 0 < resized.getD (y * hashWidth + (x + 1)) 0)

/-! ## Concrete inputs used by the witnesses -/

/-- The string of `n` letters `a` followed by one `b`. -/
def runOfA (n : Nat) : Str := List.replicate n 'a' ++ ['b']

/-- The string of one `b` followed by `n` letters `a`. -/
def bThenA (n : Nat) : Str := 'b' :: List.replicate n 'a'

/-- A one-pixel image. -/
def flatImage : Image := { width := 1, height := 1, img := [0] }

/-- A two-pixel image, dark then bright. -/
def rampImage : Image := { width := 2, height := 1, img := [0, 1] }

/-- An environment in which every path decodes to the image `g`. -/
def decodeEnv (g : Image) : Env :=
  { stbi_load := fun _ => some g, current_path := [], system := fun _ => 1,
    getlines := fun _ => none }

def imageA : FileInfo := { path := "a.png".toList, size_bytes := 1, type := "image" }

def imageB : FileInfo := { path := "b.png".toList, size_bytes := 1, type := "image" }

def audioAab : FileInfo := { path := "aab.mp3".toList, size_bytes := 10, type := "audio" }

def audioAba : FileInfo := { path := "aba.mp3".toList, size_bytes := 10, type := "audio" }

/-- An environment in which no image decodes, every helper comparer fails and
every file reads as the one line `hello world again`. -/
def helperFailEnv : Env :=
  { stbi_load := fun _ => none, current_path := "/work".toList, system := fun _ => 1,
    getlines := fun _ => some ["hello world again".toList] }

def docReport : FileInfo :=
  { path := "report.docx".toList, size_bytes := 5, type := "document" }

def docReportFinal : FileInfo :=
  { path := "report_final.docx".toList, size_bytes := 10, type := "document" }

def docDeck : FileInfo := { path := "deck.pptx".toList, size_bytes := 10, type := "document" }

def docDeck1 : FileInfo := { path := "deck1.pptx".toList, size_bytes := 10, type := "document" }

def docATxt : FileInfo := { path := "a.txt".toList, size_bytes := 1, type := "document" }

def docBPdf : FileInfo := { path := "b.pdf".toList, size_bytes := 1, type := "document" }

def audioSong : FileInfo := { path := "Song.mp3".toList, size_bytes := 3, type := "audio" }

def audioSong1 : FileInfo := { path := "song1.flac".toList, size_bytes := 4, type := "audio" }

/-- The lines written for one bucket of exact duplicates. -/
def exactGroupLines (e : Str × List FileInfo) : List Str :=
  ["EXACT|1.0".toList] ++ e.2.map (fun file => file.path) ++ ["---GROUP---".toList]

/-- The state of the first loop of `findExactDuplicates` after the records
`pre`: the entries are the non-empty lists of records per present digest. -/
def BucketsOf (calculateHash : Str → Str) (pre : List FileInfo) (m : HashMap) : Prop :=
  (m.map Prod.fst).Nodup ∧
  ∀ k v, (k, v) ∈ m ↔
    k ≠ [] ∧ v = pre.filter (fun f => calculateHash f.path = k) ∧ v ≠ []

/-- A well-formed group of `findSimilarFiles`: the anchor `files[a]` with score
1, at a position below `bound` that is not marked in `processed`, followed by
records `files[j]` at increasing marked positions `j > a`, each with the score
`areFilesSimilar` gave it against the anchor. -/
def GroupOk (env : Env) (files : List FileInfo) (processed : List Bool) (bound : Nat)
    (g : List (Nat × FileInfo)) : Prop :=
  ∃ a ms, g = (a, { files.getD a default with similarity_score := 1 }) :: ms ∧
    a < bound ∧ a < files.length ∧ processed.getD a false = false ∧
    List.Pairwise (· < ·) (a :: ms.map Prod.fst) ∧
    ∀ m ∈ ms, m.1 < files.length ∧ processed.getD m.1 false = true ∧
      m.2 = { files.getD m.1 default with similarity_score := m.2.similarity_score } ∧
      areFilesSimilar env (files.getD a default) (files.getD m.1 default)
        = (true, m.2.similarity_score)

/-- What holds of the variables of `findSimilarFiles` when the outer loop
reaches position `i`. -/
structure ScanInv (env : Env) (files : List FileInfo) (i : Nat) (st : ScanState) : Prop where
  len : st.processed.length = files.length
  groups : ∀ g ∈ st.similarGroups, GroupOk env files st.processed i g ∧ 2 ≤ g.length
  nodup : (st.similarGroups.flatten.map Prod.fst).Nodup
  claimed : ∀ k, st.processed.getD k false = true →
    ∃ g ∈ st.similarGroups, ∃ x ∈ g.tail, x.1 = k
  calls : ∀ c ∈ st.calls, c.anchor < c.candidate ∧ c.candidate < files.length ∧
    c.processed.getD c.anchor false = false ∧ c.processed.getD c.candidate false = false ∧
    c.anchor < i ∧ st.processed.getD c.anchor false = false

/-- What holds of the variables of the inner loop of `findSimilarFiles` for the
anchor `i`, entered in state `st`, once the candidates below `i + 1 + k` are
done. -/
def GroupInv (env : Env) (files : List FileInfo) (i : Nat) (st : ScanState) (k : Nat)
    (gs : GroupState) : Prop :=
  gs.processed.length = files.length ∧
  (∃ ms, gs.group = (i, { files.getD i default with similarity_score := 1 }) :: ms ∧
    List.Pairwise (· < ·) (i :: ms.map Prod.fst) ∧
    (∀ m ∈ ms, m.1 < i + 1 + k ∧ m.1 < files.length ∧
      st.processed.getD m.1 false = false ∧
      m.2 = { files.getD m.1 default with similarity_score := m.2.similarity_score } ∧
      areFilesSimilar env (files.getD i default) (files.getD m.1 default)
        = (true, m.2.similarity_score)) ∧
    ∀ x, gs.processed.getD x false = true ↔
      (st.processed.getD x false = true ∨ ∃ m ∈ ms, m.1 = x)) ∧
  ∀ c ∈ gs.calls, c ∈ st.calls ∨
    (c.anchor = i ∧ i < c.candidate ∧ c.candidate < files.length ∧
      c.processed.getD i false = false ∧ c.processed.getD c.candidate false = false)

def docACopy : FileInfo := { path := "a_copy.txt".toList, size_bytes := 1, type := "document" }

/-- A digest function under which every file has the digest `ab`. -/
def constantHash : Str → Str := fun _ => "ab".toList

/-- A directory scan that finds `a.txt` and `a_copy.txt`. -/
def twoTextFiles : Str → List FileInfo := fun _ => [docATxt, docACopy]

/-- A decoded image of width 2 and height 8 whose first four rows brighten. -/
def fourRowsImage : Image :=
  { width := 2, height := 8, img := [0, 1, 0, 1, 0, 1, 0, 1, 0, 0, 0, 0, 0, 0, 0, 0] }

/-- A decoded image of width 2 and height 8 whose first row brightens. -/
def oneRowImage : Image :=
  { width := 2, height := 8, img := [0, 1, 0, 0, 0, 0, 0, 0, 0, 0, 0, 0, 0, 0, 0, 0] }

/-- An environment in which `b.jpg` and `c.jpg` decode to images whose hashes
differ in three bits. -/
def jpgEnv : Env :=
  { stbi_load := fun p =>
      if p = "b.jpg".toList then some fourRowsImage
      else if p = "c.jpg".toList then some oneRowImage else none,
    current_path := [], system := fun _ => 1, getlines := fun _ => none }

def imageBJpg : FileInfo := { path := "b.jpg".toList, size_bytes := 7, type := "image" }

def imageCJpg : FileInfo := { path := "c.jpg".toList, size_bytes := 9, type := "image" }

/-- A directory scan that finds `b.jpg` and `c.jpg`. -/
def twoJpgFiles : Str → List FileInfo := fun _ => [imageBJpg, imageCJpg]

/-- A digest function under which every file has its path as digest. -/
def pathHash : Str → Str := fun p => p

/-- A digest function under which `a.txt` and `a_copy.txt` share the digest
`ab` and every other file has its path as digest. -/
def mixedHash : Str → Str := fun p =>
  if p = "a.txt".toList ∨ p = "a_copy.txt".toList then "ab".toList else p

/-- A directory scan that finds `a.txt`, `b.jpg`, `a_copy.txt` and `c.jpg`. -/
def mixedFiles : Str → List FileInfo := fun _ => [docATxt, imageBJpg, docACopy, imageCJpg]

/-- The command line `dupes dir --similar`. -/
def similarArgv : List Str := ["dupes".toList, "dir".toList, "--similar".toList]

/-! # Theorems -/

/-! ## Facts about the string routines -/

theorem startsWith_iff (s pat : Str) : startsWith s pat = true ↔ pat <+: s := by
  induction s generalizing pat with
  | nil => cases pat <;> simp [startsWith]
  | cons c s ih =>
    cases pat with
    | nil => simp [startsWith]
    | cons p pat =>
      rw [startsWith, Bool.and_eq_true, ih, List.cons_prefix_cons, beq_iff_eq]
      exact ⟨fun h => ⟨h.1.symm, h.2⟩, fun h => ⟨h.1.symm, h.2⟩⟩

theorem find_ne_none_iff (s pat : Str) : find s pat ≠ none ↔ pat <:+: s := by
  induction s with
  | nil =>
    by_cases h : pat = [] <;> simp [find, h]
  | cons c s ih =>
    rw [find, List.infix_cons_iff]
    by_cases h : startsWith (c :: s) pat = true
    · simp [h, (startsWith_iff _ _).1 h]
    · have h2 : ¬ pat <+: c :: s := fun hp => h ((startsWith_iff _ _).2 hp)
      rw [if_neg h, ← ih]
      cases find s pat <;> simp [h2]

theorem toInt32_succ (a : Int) : toInt32 (toInt32 a + 1) = toInt32 (a + 1) := by
  unfold toInt32
  omega

theorem toInt32_of_lt (n : Int) (h0 : 0 ≤ n) (h : n < 2 ^ 31) : toInt32 n = n := by
  unfold toInt32
  omega

theorem countInner_eq (c1 : Char) (s2 : Str) (a : Int) :
    countInner c1 s2 (toInt32 a)
      = toInt32 (a + ((s2.map (fun c2 => if c1 = c2 then 1 else 0)).sum : Nat)) := by
  unfold countInner
  induction s2 generalizing a with
  | nil => simp
  | cons c s ih =>
    rw [List.foldl_cons, List.map_cons, List.sum_cons]
    by_cases h : c1 = c
    · rw [if_pos h, if_pos h, toInt32_succ, ih]
      congr 1
      push_cast
      ring
    · rw [if_neg h, if_neg h, ih, Nat.zero_add]

theorem countCommon_eq (s1 s2 : Str) (a : Int) :
    countCommon s1 s2 (toInt32 a)
      = toInt32 (a + ((s1.map (fun c1 =>
          (s2.map (fun c2 => if c1 = c2 then 1 else 0)).sum)).sum : Nat)) := by
  unfold countCommon
  induction s1 generalizing a with
  | nil => simp
  | cons c s ih =>
    rw [List.foldl_cons, countInner_eq, ih, List.map_cons, List.sum_cons]
    congr 1
    push_cast
    ring

theorem countCommon_zero (s1 s2 : Str) :
    countCommon s1 s2 0
      = toInt32 ((s1.map (fun c1 =>
          (s2.map (fun c2 => if c1 = c2 then 1 else 0)).sum)).sum : Nat) := by
  have h := countCommon_eq s1 s2 0
  have z : toInt32 0 = 0 := by decide
  rw [z, Int.zero_add] at h
  exact h

theorem sum_indicator_cons (a : Char) (s1 s2 : Str) :
    (s2.map (fun c2 => ((a :: s1).map (fun c1 => if c2 = c1 then 1 else 0)).sum)).sum
      = (s2.map (fun c2 => if a = c2 then 1 else 0)).sum
        + (s2.map (fun c2 => (s1.map (fun c1 => if c2 = c1 then 1 else 0)).sum)).sum := by
  induction s2 with
  | nil => simp
  | cons b s ih =>
    simp only [List.map_cons, List.sum_cons] at ih ⊢
    rw [ih]
    by_cases h : a = b
    · subst h; rw [if_pos rfl]; omega
    · rw [if_neg h, if_neg (fun e => h e.symm)]; omega

theorem sum_indicator_comm (s1 s2 : Str) :
    (s1.map (fun c1 => (s2.map (fun c2 => if c1 = c2 then 1 else 0)).sum)).sum
      = (s2.map (fun c2 => (s1.map (fun c1 => if c2 = c1 then 1 else 0)).sum)).sum := by
  induction s1 with
  | nil => simp
  | cons a s ih => rw [sum_indicator_cons, List.map_cons, List.sum_cons, ih]

theorem countCommon_comm (s1 s2 : Str) : countCommon s1 s2 0 = countCommon s2 s1 0 := by
  rw [countCommon_zero, countCommon_zero, sum_indicator_comm]

theorem pairSum_eq_matchingPairs (a b : Str) :
    (a.map (fun c1 => (b.map (fun c2 => if c1 = c2 then 1 else 0)).sum)).sum
      = matchingPairs a b := by
  rw [matchingPairs, Finset.card_filter, Fintype.sum_prod_type,
    ← Fin.sum_univ_get' a (fun c1 => (b.map (fun c2 => if c1 = c2 then 1 else 0)).sum)]
  refine Finset.sum_congr rfl fun i _ => ?_
  exact (Fin.sum_univ_get' b (fun c2 => if a.get i = c2 then 1 else 0)).symm

theorem countCommon_eq_matchingPairs (a b : Str) :
    countCommon a b 0 = toInt32 (matchingPairs a b : Nat) := by
  rw [countCommon_zero, pairSum_eq_matchingPairs]

theorem similarity_when_unrelated (s1 s2 : Str) (hne : toLowerStr s1 ≠ toLowerStr s2)
    (h12 : ¬ toLowerStr s2 <:+: toLowerStr s1) (h21 : ¬ toLowerStr s1 <:+: toLowerStr s2)
    (hlen : s1.length + s2.length < 2 ^ 31) :
    calculateStringSimilarity s1 s2
      = 2 * ((countCommon (toLowerStr s1) (toLowerStr s2) 0 : Int) : ℚ)
          / ((s1.length + s2.length : Nat) : ℚ) := by
  have f1 : ¬ find (toLowerStr s1) (toLowerStr s2) ≠ none := fun h => h12 ((find_ne_none_iff _ _).1 h)
  have f2 : ¬ find (toLowerStr s2) (toLowerStr s1) ≠ none := fun h => h21 ((find_ne_none_iff _ _).1 h)
  have hpos : s1.length + s2.length > 0 := by
    rcases s1 with _ | ⟨c, s1⟩
    · exact absurd List.nil_infix h21
    · simp
  have hl : (toLowerStr s1).length + (toLowerStr s2).length = s1.length + s2.length := by
    simp [toLowerStr]
  have ht : toInt32 ((s1.length + s2.length : Nat) : Int) = ((s1.length + s2.length : Nat) : Int) :=
    toInt32_of_lt _ (Int.natCast_nonneg _) (by exact_mod_cast hlen)
  simp only [calculateStringSimilarity, if_neg hne, if_neg f1, if_neg f2]
  rw [hl, ht, if_pos (by exact_mod_cast hpos), Int.cast_natCast]

/-- Claim C2. `calculateStringSimilarity` is symmetric: swapping the two strings
does not change the score (as an exact rational). -/
theorem calculateStringSimilarity_symm (a b : Str) :
    calculateStringSimilarity a b = calculateStringSimilarity b a := by
  unfold calculateStringSimilarity
  simp only []
  by_cases he : toLowerStr a = toLowerStr b
  · rw [if_pos he, if_pos he.symm]
  · have hba : ¬ toLowerStr b = toLowerStr a := fun e => he e.symm
    by_cases h1 : find (toLowerStr a) (toLowerStr b) ≠ none <;>
      by_cases h2 : find (toLowerStr b) (toLowerStr a) ≠ none
    · simp only [if_neg he, if_neg hba, if_pos h1, if_pos h2]
    · simp only [if_neg he, if_neg hba, if_pos h1, if_neg h2, ite_self]
    · simp only [if_neg he, if_neg hba, if_neg h1, if_pos h2]
    · simp only [if_neg he, if_neg hba, if_neg h1, if_neg h2]
      rw [countCommon_comm, Nat.add_comm (toLowerStr a).length]

/-- Claim C3. When the lowercase forms of the two strings differ and one of them
occurs inside the other, the score is exactly 0.8, whatever the lengths. -/
theorem calculateStringSimilarity_substring (a b : Str)
    (hne : toLowerStr a ≠ toLowerStr b)
    (hsub : toLowerStr a <:+: toLowerStr b ∨ toLowerStr b <:+: toLowerStr a) :
    calculateStringSimilarity a b = 8 / 10 := by
  unfold calculateStringSimilarity
  simp only []
  rw [if_neg hne]
  by_cases h1 : find (toLowerStr a) (toLowerStr b) ≠ none
  · rw [if_pos h1]
  · rw [if_neg h1]
    have h2 : find (toLowerStr b) (toLowerStr a) ≠ none := by
      rcases hsub with h | h
      · exact (find_ne_none_iff _ _).2 h
      · exact absurd ((find_ne_none_iff _ _).2 h) h1
    rw [if_pos h2]

/-- Witness of C3: `("report", "report_final")` scores 0.8. -/
theorem calculateStringSimilarity_substring_witness :
    toLowerStr "report".toList ≠ toLowerStr "report_final".toList ∧
    (toLowerStr "report".toList <:+: toLowerStr "report_final".toList ∨
      toLowerStr "report_final".toList <:+: toLowerStr "report".toList) ∧
    calculateStringSimilarity "report".toList "report_final".toList = 8 / 10 :=
  ⟨by decide, Or.inl (by decide),
    calculateStringSimilarity_substring _ _ (by decide) (Or.inl (by decide))⟩

theorem toLowerStr_runOfA (n : Nat) : toLowerStr (runOfA n) = runOfA n := by
  have ha : tolower 'a' = 'a' := by decide
  have hb : tolower 'b' = 'b' := by decide
  simp only [toLowerStr, runOfA, List.map_append, List.map_replicate, List.map_cons,
    List.map_nil, ha, hb]

theorem toLowerStr_bThenA (n : Nat) : toLowerStr (bThenA n) = bThenA n := by
  have ha : tolower 'a' = 'a' := by decide
  have hb : tolower 'b' = 'b' := by decide
  simp only [toLowerStr, bThenA, List.map_replicate, List.map_cons, ha, hb]

theorem length_runOfA (n : Nat) : (runOfA n).length = n + 1 := by
  simp [runOfA]

theorem length_bThenA (n : Nat) : (bThenA n).length = n + 1 := by
  simp [bThenA]

theorem runOfA_ne_bThenA (n : Nat) : runOfA (n + 1) ≠ bThenA (n + 1) := by
  intro h
  have h' := congrArg List.head? h
  simp [runOfA, bThenA, List.replicate_succ] at h'

theorem matchingPairs_runOfA (n : Nat) :
    matchingPairs (runOfA n) (bThenA n) = n * n + 1 := by
  have hab : ¬ 'a' = 'b' := by decide
  have hba : ¬ 'b' = 'a' := by decide
  rw [← pairSum_eq_matchingPairs]
  simp only [runOfA, bThenA, List.map_append, List.map_replicate, List.map_cons, List.map_nil,
    List.sum_append, List.sum_cons, List.sum_nil, List.sum_replicate, smul_eq_mul, if_neg hab,
    if_neg hba, if_true, Nat.mul_one, Nat.mul_zero, Nat.add_zero, Nat.zero_add]

/-- Counterexample to C4: for the two strings `a…ab` and `ba…a` with 49999
letters `a` each, the lowercase forms differ and neither occurs inside the
other; they have `49999 * 49999 + 1 = 2499900002` matching index pairs, the
counter `int common` wraps around to `-1795067294`, and the score is
`2 * (-1795067294) / 100000`, not `2 * 2499900002 / 100000`. -/
theorem calculateStringSimilarity_pairs_counterexample :
    toLowerStr (runOfA 49999) ≠ toLowerStr (bThenA 49999) ∧
    ¬ toLowerStr (runOfA 49999) <:+: toLowerStr (bThenA 49999) ∧
    ¬ toLowerStr (bThenA 49999) <:+: toLowerStr (runOfA 49999) ∧
    matchingPairs (toLowerStr (runOfA 49999)) (toLowerStr (bThenA 49999)) = 2499900002 ∧
    calculateStringSimilarity (runOfA 49999) (bThenA 49999) = 2 * (-1795067294) / 100000 ∧
    calculateStringSimilarity (runOfA 49999) (bThenA 49999)
      ≠ 2 * (matchingPairs (toLowerStr (runOfA 49999)) (toLowerStr (bThenA 49999)) : ℚ)
          / (((runOfA 49999).length : ℚ) + ((bThenA 49999).length : ℚ)) := by
  have l1 : (runOfA 49999).length = 50000 := length_runOfA 49999
  have l2 : (bThenA 49999).length = 50000 := length_bThenA 49999
  have hne : runOfA 49999 ≠ bThenA 49999 := runOfA_ne_bThenA 49998
  have h12 : ¬ runOfA 49999 <:+: bThenA 49999 := fun h =>
    hne (h.eq_of_length (by rw [l1, l2]))
  have h21 : ¬ bThenA 49999 <:+: runOfA 49999 := fun h =>
    hne (h.eq_of_length (by rw [l1, l2])).symm
  have hp : matchingPairs (runOfA 49999) (bThenA 49999) = 2499900002 :=
    matchingPairs_runOfA 49999
  have hw : toInt32 ((2499900002 : Nat) : Int) = -1795067294 := by decide
  have hs : calculateStringSimilarity (runOfA 49999) (bThenA 49999)
      = 2 * (-1795067294) / 100000 := by
    rw [similarity_when_unrelated _ _ (by rw [toLowerStr_runOfA, toLowerStr_bThenA]; exact hne)
      (by rw [toLowerStr_runOfA, toLowerStr_bThenA]; exact h21)
      (by rw [toLowerStr_runOfA, toLowerStr_bThenA]; exact h12)
      (by rw [l1, l2]; decide),
      countCommon_eq_matchingPairs, toLowerStr_runOfA, toLowerStr_bThenA, hp, hw, l1, l2]
    norm_num
  rw [toLowerStr_runOfA, toLowerStr_bThenA]
  refine ⟨hne, h12, h21, hp, hs, ?_⟩
  rw [hs, hp, l1, l2]
  norm_num

/-- Claim C4, amended. When the lowercase forms differ, neither occurs inside the
other, and the number `count` of index pairs `(i, j)` with
`lower(s1)[i] = lower(s2)[j]` as well as `len s1 + len s2` are below `2^31` (they
fit the `int` variables that hold them), the score is
`2 * count / (len s1 + len s2)`. -/
theorem calculateStringSimilarity_pairs (s1 s2 : Str)
    (hne : toLowerStr s1 ≠ toLowerStr s2)
    (h12 : ¬ toLowerStr s1 <:+: toLowerStr s2)
    (h21 : ¬ toLowerStr s2 <:+: toLowerStr s1)
    (hpairs : matchingPairs (toLowerStr s1) (toLowerStr s2) < 2 ^ 31)
    (hlen : s1.length + s2.length < 2 ^ 31) :
    calculateStringSimilarity s1 s2
      = 2 * (matchingPairs (toLowerStr s1) (toLowerStr s2) : ℚ)
          / ((s1.length : ℚ) + (s2.length : ℚ)) := by
  rw [similarity_when_unrelated s1 s2 hne h21 h12 hlen, countCommon_eq_matchingPairs,
    toInt32_of_lt _ (Int.natCast_nonneg _) (by exact_mod_cast hpairs), Int.cast_natCast,
    Nat.cast_add]

/-- Witness of C4 (amended): `"aab"` against `"aba"` has five matching index
pairs. -/
theorem calculateStringSimilarity_pairs_witness :
    toLowerStr "aab".toList ≠ toLowerStr "aba".toList ∧
    ¬ toLowerStr "aab".toList <:+: toLowerStr "aba".toList ∧
    ¬ toLowerStr "aba".toList <:+: toLowerStr "aab".toList ∧
    matchingPairs (toLowerStr "aab".toList) (toLowerStr "aba".toList) < 2 ^ 31 ∧
    "aab".toList.length + "aba".toList.length < 2 ^ 31 ∧
    calculateStringSimilarity "aab".toList "aba".toList
      = 2 * (matchingPairs (toLowerStr "aab".toList) (toLowerStr "aba".toList) : ℚ)
          / (("aab".toList.length : ℚ) + ("aba".toList.length : ℚ)) :=
  ⟨by decide, by decide, by decide, by decide, by decide,
    calculateStringSimilarity_pairs _ _ (by decide) (by decide) (by decide) (by decide)
      (by decide)⟩

/-! ## Hamming distance -/

theorem hammingLoop_zero (distance : Nat) : hammingLoop 0 distance = distance := by
  rw [hammingLoop]; simp

theorem hammingLoop_step (diff distance : Nat) (h : diff ≠ 0) :
    hammingLoop diff distance = hammingLoop (diff >>> 1) (distance + (diff &&& 1)) := by
  rw [hammingLoop]; simp [h]

theorem setBits_succ (n diff : Nat) :
    setBits (n + 1) diff = diff % 2 + setBits n (diff / 2) := by
  unfold setBits
  have h0 : diff.testBit 0 = decide (diff % 2 = 1) := Nat.testBit_zero diff
  have hs : ((fun i => diff.testBit i) ∘ Nat.succ) = (fun i => (diff / 2).testBit i) := by
    funext i
    simp [Nat.testBit_succ]
  rw [List.range_succ_eq_map, List.filter_cons, List.filter_map, hs, h0]
  rcases Nat.mod_two_eq_zero_or_one diff with h | h
  · simp [h]
  · simp [h]; omega

theorem hammingLoop_eq (n : Nat) : ∀ diff distance : Nat, diff < 2 ^ n →
    hammingLoop diff distance = distance + setBits n diff := by
  induction n with
  | zero =>
    intro diff distance h
    have : diff = 0 := by simpa using h
    subst this
    simp [hammingLoop_zero, setBits]
  | succ n ih =>
    intro diff distance h
    by_cases h0 : diff = 0
    · subst h0
      rw [hammingLoop_zero, setBits_succ]
      have := ih 0 0 (by positivity)
      rw [hammingLoop_zero] at this
      simp at this ⊢
      omega
    · rw [hammingLoop_step _ _ h0, setBits_succ, Nat.shiftRight_eq_div_pow, pow_one,
        Nat.and_one_is_mod, ih _ _ (by rw [pow_succ] at h; omega)]
      omega

theorem setBits_xor (h1 h2 : Nat) : setBits 64 (h1 ^^^ h2) = differingBits h1 h2 := by
  unfold setBits differingBits
  have hr : (List.range 64).toFinset = Finset.range 64 := by
    ext i
    simp
  rw [← List.toFinset_card_of_nodup ((List.nodup_range 64).filter _), List.toFinset_filter, hr]
  congr 1
  apply Finset.filter_congr
  intro i _
  rw [Nat.testBit_xor]
  cases h1.testBit i <;> cases h2.testBit i <;> simp

theorem hammingDistance_eq (h1 h2 : Nat) (b1 : h1 < 2 ^ 64) (b2 : h2 < 2 ^ 64) :
    hammingDistance h1 h2 = differingBits h1 h2 := by
  unfold hammingDistance
  simp only []
  rw [hammingLoop_eq 64 _ _ (Nat.xor_lt_two_pow b1 b2), Nat.zero_add, setBits_xor]

theorem differingBits_le (h1 h2 : Nat) : differingBits h1 h2 ≤ 64 := by
  unfold differingBits
  exact (Finset.card_filter_le _ _).trans (by simp)

/-- Claim C7. For 64-bit values the loop of `hammingDistance` ends (the function
is total) and returns the number of bit positions `0..63` in which the two
values differ, a number between 0 and 64. -/
theorem hammingDistance_popcount (h1 h2 : Nat) (b1 : h1 < 2 ^ 64) (b2 : h2 < 2 ^ 64) :
    hammingDistance h1 h2 = differingBits h1 h2 ∧
    0 ≤ hammingDistance h1 h2 ∧ hammingDistance h1 h2 ≤ 64 := by
  rw [hammingDistance_eq h1 h2 b1 b2]
  exact ⟨rfl, Nat.zero_le _, differingBits_le h1 h2⟩

/-- Witness of C7: `5` and `2` differ in three bit positions. -/
theorem hammingDistance_popcount_witness :
    (5 : Nat) < 2 ^ 64 ∧ (2 : Nat) < 2 ^ 64 ∧
    (hammingDistance 5 2 = differingBits 5 2 ∧
      0 ≤ hammingDistance 5 2 ∧ hammingDistance 5 2 ≤ 64) :=
  ⟨by decide, by decide, hammingDistance_popcount 5 2 (by decide) (by decide)⟩

/-- Claim C8. `hammingDistance` is symmetric and vanishes on equal arguments. -/
theorem hammingDistance_symm_self (h1 h2 : Nat) :
    hammingDistance h1 h2 = hammingDistance h2 h1 ∧ hammingDistance h1 h1 = 0 := by
  unfold hammingDistance
  simp only []
  rw [Nat.xor_comm h1 h2, Nat.xor_self, hammingLoop_zero]
  exact ⟨rfl, rfl⟩

/-! ## Counted loops and the image hash -/

theorem forLoop_zero {σ : Type} (body : Nat → σ → σ) (init : σ) :
    forLoop 0 body init = init := rfl

theorem forLoop_succ {σ : Type} (n : Nat) (body : Nat → σ → σ) (init : σ) :
    forLoop (n + 1) body init = body n (forLoop n body init) := by
  unfold forLoop
  rw [List.range_succ, List.foldl_append]
  rfl

theorem testBit_or_bit (h b i : Nat) :
    (h ||| (1 <<< b)).testBit i = (h.testBit i || decide (b = i)) := by
  rw [Nat.testBit_or, Nat.one_shiftLeft, Nat.testBit_two_pow]

/-- One row of the packing loop: the inner `for x` of lines 101-109. -/
theorem packBits_row (r : List Nat) (y n : Nat) (st : Nat × Nat) :
    let st' := forLoop n (fun x st =>
      ((if r.getD (y * hashWidth + x) 0 < r.getD (y * hashWidth + (x + 1)) 0
        then st.1 ||| (1 <<< st.2) else st.1), st.2 + 1)) st
    st'.2 = st.2 + n ∧
    ∀ i, st'.1.testBit i =
      (st.1.testBit i || (decide (st.2 ≤ i ∧ i < st.2 + n) && lessAt r y (i - st.2))) := by
  induction n with
  | zero =>
    refine ⟨rfl, fun i => ?_⟩
    rw [forLoop_zero]
    have : ¬ (st.2 ≤ i ∧ i < st.2 + 0) := by omega
    simp [this]
  | succ n ih =>
    obtain ⟨h2, hb⟩ := ih
    simp only [] at h2 hb ⊢
    rw [forLoop_succ]
    refine ⟨by rw [h2]; omega, fun i => ?_⟩
    simp only []
    by_cases e : st.2 + n = i
    · have hr : decide (st.2 ≤ i ∧ i < st.2 + (n + 1)) = true := by
        simp only [decide_eq_true_eq]; omega
      have hn : ¬ (st.2 ≤ i ∧ i < st.2 + n) := by omega
      have hx : i - st.2 = n := by omega
      rw [hr, Bool.true_and, hx]
      split
      · next c =>
        have : lessAt r y n = true := by simpa [lessAt] using c
        rw [testBit_or_bit, h2, this]
        simp [e]
      · next c =>
        have : lessAt r y n = false := by simpa [lessAt] using c
        rw [hb, this]
        simp [hn]
    · have hd : decide (st.2 ≤ i ∧ i < st.2 + (n + 1)) = decide (st.2 ≤ i ∧ i < st.2 + n) := by
        apply decide_eq_decide.2
        omega
      rw [hd]
      split
      · rw [testBit_or_bit, h2, hb]
        simp [e]
      · rw [hb]

theorem packBits_rows (r : List Nat) (m : Nat) :
    let st' := forLoop m (fun y st =>
      forLoop (hashWidth - 1) (fun x st =>
        ((if r.getD (y * hashWidth + x) 0 < r.getD (y * hashWidth + (x + 1)) 0
          then st.1 ||| (1 <<< st.2) else st.1), st.2 + 1)) st) ((0, 0) : Nat × Nat)
    st'.2 = 8 * m ∧
    ∀ i, st'.1.testBit i = (decide (i < 8 * m) && lessAt r (i / 8) (i % 8)) := by
  induction m with
  | zero =>
    refine ⟨rfl, fun i => ?_⟩
    rw [forLoop_zero]
    simp
  | succ m ih =>
    obtain ⟨h2, hb⟩ := ih
    simp only [] at h2 hb ⊢
    rw [forLoop_succ]
    obtain ⟨r2, rb⟩ := packBits_row r m (hashWidth - 1) (forLoop m (fun y st =>
      forLoop (hashWidth - 1) (fun x st =>
        ((if r.getD (y * hashWidth + x) 0 < r.getD (y * hashWidth + (x + 1)) 0
          then st.1 ||| (1 <<< st.2) else st.1), st.2 + 1)) st) ((0, 0) : Nat × Nat))
    refine ⟨by rw [r2, h2]; simp [hashWidth]; omega, fun i => ?_⟩
    rw [rb, hb, h2]
    simp only [hashWidth]
    by_cases c : i < 8 * m
    · have c2 : i < 8 * (m + 1) := by omega
      have c3 : ¬ (8 * m ≤ i ∧ i < 8 * m + (9 - 1)) := by omega
      simp [c, c2, c3]
    · by_cases d : i < 8 * (m + 1)
      · have c3 : (8 * m ≤ i ∧ i < 8 * m + (9 - 1)) := by omega
        have e1 : i / 8 = m := by omega
        have e2 : i - 8 * m = i % 8 := by omega
        simp [c, d, c3, e1, e2]
      · have c3 : ¬ (8 * m ≤ i ∧ i < 8 * m + (9 - 1)) := by omega
        simp [c, d, c3]

theorem packBits_testBit (r : List Nat) (i : Nat) :
    (packBits r).1.testBit i = (decide (i < 64) && lessAt r (i / 8) (i % 8)) := by
  obtain ⟨_, hb⟩ := packBits_rows r hashHeight
  have h := hb i
  have e : (8 * hashHeight) = 64 := rfl
  rw [e] at h
  simp only [packBits]
  exact h

theorem imageHash_high (g : Image) (n : Nat) (hn : 64 ≤ n) : (imageHash g).testBit n = false := by
  unfold imageHash
  rw [packBits_testBit]
  have : ¬ n < 64 := by omega
  simp [this]

theorem imageHash_lt (g : Image) : imageHash g < 2 ^ 64 :=
  Nat.lt_pow_two_of_testBit _ (fun i hi => imageHash_high g i hi)

theorem calculateImageHash_lt (env : Env) (p : Str) : calculateImageHash env p < 2 ^ 64 := by
  unfold calculateImageHash
  cases env.stbi_load p with
  | none => simp
  | some g => exact imageHash_lt g

/-! ## Text similarity -/

theorem extractWords_nil : extractWords [] = ∅ := by
  simp [extractWords, tokens]

theorem calculateTextSimilarity_eq (t1 t2 : Str) :
    calculateTextSimilarity t1 t2 =
      if extractWords t1 = ∅ ∨ extractWords t2 = ∅ then 0
      else ((extractWords t1 ∩ extractWords t2).card : ℚ)
        / ((extractWords t1 ∪ extractWords t2).card : ℚ) := by
  unfold calculateTextSimilarity
  by_cases ht : t1 = [] ∨ t2 = []
  · rw [if_pos ht, if_pos]
    rcases ht with h | h
    · exact Or.inl (by rw [h, extractWords_nil])
    · exact Or.inr (by rw [h, extractWords_nil])
  · rw [if_neg ht]
    simp only []
    have hc : (extractWords t1).filter (fun word => word ∈ extractWords t2)
        = extractWords t1 ∩ extractWords t2 := Finset.filter_mem_eq_inter
    have hu := Finset.card_union_add_card_inter (extractWords t1) (extractWords t2)
    have htot : (extractWords t1).card + (extractWords t2).card
        - (extractWords t1 ∩ extractWords t2).card
        = (extractWords t1 ∪ extractWords t2).card := by omega
    rw [hc, htot]
    by_cases he : extractWords t1 = ∅ ∨ extractWords t2 = ∅
    · rw [if_pos he]
      have h0 : (extractWords t1 ∩ extractWords t2).card = 0 := by
        rcases he with h | h <;> simp [h]
      rw [h0]
      split <;> simp
    · rw [if_neg he, if_pos]
      have : extractWords t1 ≠ ∅ := fun h => he (Or.inl h)
      have h1 : 0 < (extractWords t1).card := Finset.card_pos.2 (Finset.nonempty_iff_ne_empty.2 this)
      have h2 : (extractWords t1).card ≤ (extractWords t1 ∪ extractWords t2).card :=
        Finset.card_le_card Finset.subset_union_left
      omega

/-- Claim C10. `calculateTextSimilarity` is the Jaccard index of the two word
sets; it is 0 when either word set is empty, hence 0 for disjoint non-empty word
sets, and it is 1 for identical non-empty word sets. -/
theorem calculateTextSimilarity_jaccard (t1 t2 : Str) :
    (extractWords t1 ≠ ∅ → extractWords t2 ≠ ∅ →
      calculateTextSimilarity t1 t2
        = ((extractWords t1 ∩ extractWords t2).card : ℚ)
          / ((extractWords t1 ∪ extractWords t2).card : ℚ)) ∧
    (extractWords t1 = ∅ ∨ extractWords t2 = ∅ → calculateTextSimilarity t1 t2 = 0) ∧
    (extractWords t1 ≠ ∅ → extractWords t2 ≠ ∅ →
      Disjoint (extractWords t1) (extractWords t2) → calculateTextSimilarity t1 t2 = 0) ∧
    (extractWords t1 ≠ ∅ → extractWords t1 = extractWords t2 →
      calculateTextSimilarity t1 t2 = 1) := by
  rw [calculateTextSimilarity_eq]
  refine ⟨fun h1 h2 => ?_, fun h => if_pos h, fun h1 h2 hd => ?_, fun h1 he => ?_⟩
  · rw [if_neg (by tauto)]
  · rw [if_neg (by tauto), Finset.disjoint_iff_inter_eq_empty.1 hd]
    simp
  · rw [← he, if_neg (by tauto), Finset.inter_self, Finset.union_self]
    have : ((extractWords t1).card : ℚ) ≠ 0 := by
      exact_mod_cast Finset.card_ne_zero.2 (Finset.nonempty_iff_ne_empty.2 h1)
    exact div_self this

/-- Witness of C10: two texts sharing two of their four distinct words. -/
theorem calculateTextSimilarity_jaccard_witness :
    extractWords "the quick fox".toList ≠ ∅ ∧ extractWords "The lazy fox!".toList ≠ ∅ ∧
    calculateTextSimilarity "the quick fox".toList "The lazy fox!".toList
      = ((extractWords "the quick fox".toList ∩ extractWords "The lazy fox!".toList).card : ℚ)
        / ((extractWords "the quick fox".toList ∪ extractWords "The lazy fox!".toList).card : ℚ) :=
  ⟨by decide, by decide,
    (calculateTextSimilarity_jaccard "the quick fox".toList "The lazy fox!".toList).1
      (by decide) (by decide)⟩

/-! ## Image comparison -/

theorem areImagesSimilar_eq (env : Env) (img1 img2 : FileInfo) :
    areImagesSimilar env img1 img2 =
      if calculateImageHash env img1.path = 0 ∨ calculateImageHash env img2.path = 0
      then (false, 0)
      else if differingBits (calculateImageHash env img1.path)
          (calculateImageHash env img2.path) ≤ 10
      then (true, 1 - (differingBits (calculateImageHash env img1.path)
          (calculateImageHash env img2.path) : ℚ) / 64)
      else (false, 0) := by
  unfold areImagesSimilar
  simp only []
  rw [hammingDistance_eq _ _ (calculateImageHash_lt env _) (calculateImageHash_lt env _)]
  by_cases h0 : calculateImageHash env img1.path = 0 ∨ calculateImageHash env img2.path = 0
  · rw [if_pos h0, if_pos h0]
  · rw [if_neg h0, if_neg h0]
    by_cases hd : differingBits (calculateImageHash env img1.path)
        (calculateImageHash env img2.path) ≤ 10
    · simp [hd]
    · simp [hd]

theorem differingBits_self (h : Nat) : differingBits h h = 0 := by
  simp [differingBits]

/-- Counterexample to C5: two records that decode to the same one-pixel
image hash to 0 and are reported as not matching. -/
theorem areImagesSimilar_identical_counterexample :
    (decodeEnv flatImage).stbi_load imageA.path = some flatImage ∧
    (decodeEnv flatImage).stbi_load imageB.path = some flatImage ∧
    flatImage.img.length = flatImage.width * flatImage.height ∧
    areImagesSimilar (decodeEnv flatImage) imageA imageB = (false, 0) ∧
    areImagesSimilar (decodeEnv flatImage) imageA imageB ≠ (true, 1) := by
  have h : ∀ p, calculateImageHash (decodeEnv flatImage) p = 0 := fun p => by
    show imageHash flatImage = 0
    decide
  have e : areImagesSimilar (decodeEnv flatImage) imageA imageB = (false, 0) := by
    rw [areImagesSimilar_eq, if_pos (Or.inl (h _))]
  refine ⟨rfl, rfl, rfl, e, ?_⟩
  rw [e]
  simp

/-- Claim C5, amended. Two image records that decode to the same pixel grid get
the same perceptual hash; when that hash is not 0 the result is a match with
score 1, and when it is 0 the result is no match with score 0. -/
theorem areImagesSimilar_identical (env : Env) (img1 img2 : FileInfo) (g : Image)
    (h1 : env.stbi_load img1.path = some g) (h2 : env.stbi_load img2.path = some g) :
    calculateImageHash env img1.path = calculateImageHash env img2.path ∧
    (calculateImageHash env img1.path ≠ 0 → areImagesSimilar env img1 img2 = (true, 1)) ∧
    (calculateImageHash env img1.path = 0 → areImagesSimilar env img1 img2 = (false, 0)) := by
  have e : calculateImageHash env img1.path = calculateImageHash env img2.path := by
    unfold calculateImageHash
    rw [h1, h2]
  refine ⟨e, fun hne => ?_, fun h0 => ?_⟩
  · rw [areImagesSimilar_eq, ← e, if_neg (by tauto), differingBits_self]
    simp
  · rw [areImagesSimilar_eq, if_pos (Or.inl h0)]

/-- Witness of C5 (amended): two records decoding to the same two-pixel
image match with score 1. -/
theorem areImagesSimilar_identical_witness :
    (decodeEnv rampImage).stbi_load imageA.path = some rampImage ∧
    (decodeEnv rampImage).stbi_load imageB.path = some rampImage ∧
    calculateImageHash (decodeEnv rampImage) imageA.path ≠ 0 ∧
    areImagesSimilar (decodeEnv rampImage) imageA imageB = (true, 1) :=
  ⟨rfl, rfl, by show imageHash rampImage ≠ 0; decide,
    (areImagesSimilar_identical (decodeEnv rampImage) imageA imageB rampImage rfl rfl).2.1
      (by show imageHash rampImage ≠ 0; decide)⟩

/-- Claim C6. `areImagesSimilar` reports a match exactly when neither hash is 0
and the two hashes differ in at most 10 bit positions; a matched pair has score
`1 - distance/64`. Hashes more than 10 bits apart never match, two zero hashes
never match, and a record that fails to decode never matches. -/
theorem areImagesSimilar_match_iff (env : Env) (img1 img2 : FileInfo) :
    ((areImagesSimilar env img1 img2).1 = true ↔
      calculateImageHash env img1.path ≠ 0 ∧ calculateImageHash env img2.path ≠ 0 ∧
      differingBits (calculateImageHash env img1.path)
        (calculateImageHash env img2.path) ≤ 10) ∧
    hammingDistance (calculateImageHash env img1.path) (calculateImageHash env img2.path)
      = differingBits (calculateImageHash env img1.path) (calculateImageHash env img2.path) ∧
    ((areImagesSimilar env img1 img2).1 = true →
      (areImagesSimilar env img1 img2).2
        = 1 - (differingBits (calculateImageHash env img1.path)
            (calculateImageHash env img2.path) : ℚ) / 64) ∧
    (10 < differingBits (calculateImageHash env img1.path)
        (calculateImageHash env img2.path) →
      (areImagesSimilar env img1 img2).1 = false) ∧
    (calculateImageHash env img1.path = 0 → calculateImageHash env img2.path = 0 →
      (areImagesSimilar env img1 img2).1 = false) ∧
    (env.stbi_load img1.path = none ∨ env.stbi_load img2.path = none →
      areImagesSimilar env img1 img2 = (false, 0)) := by
  rw [areImagesSimilar_eq]
  refine ⟨?_, hammingDistance_eq _ _ (calculateImageHash_lt env _) (calculateImageHash_lt env _),
    ?_, ?_, ?_, ?_⟩
  · by_cases h0 : calculateImageHash env img1.path = 0 ∨ calculateImageHash env img2.path = 0
    · rw [if_pos h0]
      simp only [Bool.false_eq_true, false_iff]
      tauto
    · rw [if_neg h0]
      by_cases hd : differingBits (calculateImageHash env img1.path)
          (calculateImageHash env img2.path) ≤ 10
      · rw [if_pos hd]
        simp only [true_iff]
        tauto
      · rw [if_neg hd]
        simp only [Bool.false_eq_true, false_iff]
        tauto
  · split
    · simp
    · split <;> simp
  · intro h
    split
    · rfl
    · rw [if_neg (by omega)]
  · intro h _
    rw [if_pos (Or.inl h)]
  · intro h
    rw [if_pos]
    rcases h with h | h
    · exact Or.inl (by unfold calculateImageHash; rw [h])
    · exact Or.inr (by unfold calculateImageHash; rw [h])

/-! ## The range of the score -/

/-- Claim C1, evaluated at the failing input: two audio records with stems `aab`
and `aba` are reported as a match with score `5/3`, which is above 1, whatever
the external collaborators do. -/
theorem areFilesSimilar_score_above_one (env : Env) :
    areFilesSimilar env audioAab audioAba = (true, 5 / 3) ∧
    ¬ (areFilesSimilar env audioAab audioAba).2 ≤ 1 := by
  have s1 : stem audioAab.path = "aab".toList := by decide
  have s2 : stem audioAba.path = "aba".toList := by decide
  have hs : calculateStringSimilarity "aab".toList "aba".toList = 5 / 3 := by
    rw [similarity_when_unrelated _ _ (by decide) (by decide) (by decide) (by decide)]
    have : countCommon (toLowerStr "aab".toList) (toLowerStr "aba".toList) 0 = 5 := by decide
    rw [this]
    norm_num
  have e : areFilesSimilar env audioAab audioAba = (true, 5 / 3) := by
    unfold areFilesSimilar
    rw [if_neg (by decide), if_neg (by decide), if_pos (by decide)]
    unfold areAudioSimilar
    simp only []
    rw [s1, s2, if_neg (by decide), if_neg (by decide), if_neg (by decide), hs]
    norm_num
  rw [e]
  norm_num

theorem tolower_ofNat (n : Nat) (h1 : 65 ≤ n) (h2 : n ≤ 90) :
    (Char.ofNat (n + 32)).toLower = Char.ofNat (n + 32) := by
  interval_cases n <;> rfl

theorem tolower_idem (c : Char) : tolower (tolower c) = tolower c := by
  unfold tolower
  by_cases h : 65 ≤ c.toNat ∧ c.toNat ≤ 90
  · have e : c.toLower = Char.ofNat (c.toNat + 32) := by
      rw [Char.toLower]
      exact if_pos h
    rw [e]
    exact tolower_ofNat _ h.1 h.2
  · have e : c.toLower = c := by
      rw [Char.toLower]
      exact if_neg h
    rw [e, e]

theorem toLowerStr_idem (s : Str) : toLowerStr (toLowerStr s) = toLowerStr s := by
  unfold toLowerStr
  rw [List.map_map]
  apply List.map_congr_left
  intro c _
  exact tolower_idem c

theorem calculateStringSimilarity_lower (s1 s2 : Str) :
    calculateStringSimilarity (toLowerStr s1) (toLowerStr s2) = calculateStringSimilarity s1 s2 := by
  unfold calculateStringSimilarity
  simp only [toLowerStr_idem]

/-! ## Documents and audio -/

theorem areFilesSimilar_document (env : Env) (f1 f2 : FileInfo)
    (h1 : f1.type = "document") (h2 : f2.type = "document") :
    areFilesSimilar env f1 f2 = areDocumentsSimilar env f1 f2 := by
  unfold areFilesSimilar
  rw [h1, h2]
  simp

theorem areFilesSimilar_audio (env : Env) (f1 f2 : FileInfo)
    (h1 : f1.type = "audio") (h2 : f2.type = "audio") :
    areFilesSimilar env f1 f2 = areAudioSimilar f1 f2 := by
  unfold areFilesSimilar
  rw [h1, h2]
  simp

theorem similarity_when_inside (a b : Str) (hne : toLowerStr a ≠ toLowerStr b)
    (hsub : toLowerStr a <:+: toLowerStr b ∨ toLowerStr b <:+: toLowerStr a) :
    calculateStringSimilarity a b = 8 / 10 := by
  unfold calculateStringSimilarity
  simp only []
  rw [if_neg hne]
  by_cases h1 : find (toLowerStr a) (toLowerStr b) ≠ none
  · rw [if_pos h1]
  · rw [if_neg h1]
    have h2 : find (toLowerStr b) (toLowerStr a) ≠ none := by
      rcases hsub with h | h
      · exact (find_ne_none_iff _ _).2 h
      · exact absurd ((find_ne_none_iff _ _).2 h) h1
    rw [if_pos h2]

theorem areDocumentsSimilar_of_ratio (env : Env) (doc1 doc2 : FileInfo) (r : ℚ)
    (hr : sizeRatio doc1.size_bytes doc2.size_bytes = some r) (h3 : 3 / 10 ≤ r) :
    areDocumentsSimilar env doc1 doc2 =
      if ((contains doc1.path ".xlsx" || contains doc1.path ".xls") &&
          (contains doc2.path ".xlsx" || contains doc2.path ".xls")) = true then
        areExcelSimilar env doc1 doc2
      else if (contains doc1.path ".docx" && contains doc2.path ".docx") = true then
        areWordSimilar env doc1 doc2
      else if (contains doc1.path ".pptx" && contains doc2.path ".pptx") = true then
        arePowerPointSimilar env doc1 doc2
      else if calculateStringSimilarity (stem doc1.path) (stem doc2.path) > 7 / 10 then
        (true, calculateStringSimilarity (stem doc1.path) (stem doc2.path))
      else if (contains doc1.path ".txt" || contains doc1.path ".csv") = true then
        (decide (calculateTextSimilarity (extractTextContent env doc1)
            (extractTextContent env doc2) > 6 / 10),
          calculateTextSimilarity (extractTextContent env doc1) (extractTextContent env doc2))
      else (false, 0) := by
  unfold areDocumentsSimilar
  rw [hr]
  have h : decide (r < 3 / 10) = false := by simpa using h3
  simp only [h, Bool.false_eq_true, if_false]

/-- Counterexample to C11: with every helper failing, two `.docx` records of
sizes 5 and 10 (ratio 0.5) whose stems score 0.8 are a match with score 0.8,
and two `.pptx` records of equal size whose stems score 0.8 are no match. -/
theorem areDocumentsSimilar_fallback_counterexample :
    sizeRatio docReport.size_bytes docReportFinal.size_bytes = some (1 / 2) ∧
    calculateStringSimilarity (stem docReport.path) (stem docReportFinal.path) = 8 / 10 ∧
    helperFailEnv.system (helperCommand helperFailEnv.current_path "word_comparer.py".toList
      docReport.path docReportFinal.path) ≠ 0 ∧
    areFilesSimilar helperFailEnv docReport docReportFinal = (true, 8 / 10) ∧
    sizeRatio docDeck.size_bytes docDeck1.size_bytes = some 1 ∧
    calculateStringSimilarity (stem docDeck.path) (stem docDeck1.path) = 8 / 10 ∧
    areFilesSimilar helperFailEnv docDeck docDeck1 = (false, 0) := by
  have r1 : sizeRatio docReport.size_bytes docReportFinal.size_bytes = some (1 / 2) := by
    simp [sizeRatio, docReport, docReportFinal]
    norm_num
  have r2 : sizeRatio docDeck.size_bytes docDeck1.size_bytes = some 1 := by
    simp [sizeRatio, docDeck, docDeck1]
  have s1 : calculateStringSimilarity (stem docReport.path) (stem docReportFinal.path)
      = 8 / 10 :=
    similarity_when_inside _ _ (by decide) (Or.inl (by decide))
  have s2 : calculateStringSimilarity (stem docDeck.path) (stem docDeck1.path) = 8 / 10 :=
    similarity_when_inside _ _ (by decide) (Or.inl (by decide))
  refine ⟨r1, s1, by decide, ?_, r2, s2, ?_⟩
  · rw [areFilesSimilar_document _ _ _ rfl rfl]
    rw [areDocumentsSimilar_of_ratio _ _ _ _ r1 (by norm_num)]
    have c1 : ((contains docReport.path ".xlsx" || contains docReport.path ".xls") &&
      (contains docReportFinal.path ".xlsx" || contains docReportFinal.path ".xls")) = false := by
      decide
    have c2 : (contains docReport.path ".docx" && contains docReportFinal.path ".docx")
      = true := by decide
    simp only [c1, c2, Bool.false_eq_true, if_false, if_true]
    unfold areWordSimilar
    simp only [s1]
    norm_num [helperFailEnv]
  · rw [areFilesSimilar_document _ _ _ rfl rfl]
    rw [areDocumentsSimilar_of_ratio _ _ _ _ r2 (by norm_num)]
    have c1 : ((contains docDeck.path ".xlsx" || contains docDeck.path ".xls") &&
      (contains docDeck1.path ".xlsx" || contains docDeck1.path ".xls")) = false := by decide
    have c2 : (contains docDeck.path ".docx" && contains docDeck1.path ".docx") = false := by
      decide
    have c3 : (contains docDeck.path ".pptx" && contains docDeck1.path ".pptx") = true := by
      decide
    simp only [c1, c2, c3, Bool.false_eq_true, if_false, if_true]
    unfold arePowerPointSimilar
    norm_num [helperFailEnv]

/-- Claim C11, amended. For two document records with size ratio `r ≥ 0.3` whose
helper comparer fails: a pair dispatched to the spreadsheet comparer matches
exactly when `r > 0.8` and the name similarity exceeds 0.7, with score
`(r + nameSim)/2` when matched and 0 otherwise; a pair dispatched to the
word-processor comparer matches exactly when the name similarity exceeds 0.7 and
carries the name similarity as its score; a pair dispatched to the presentation
comparer is no match with score 0. -/
theorem areDocumentsSimilar_helper_failure (env : Env) (doc1 doc2 : FileInfo) (r : ℚ)
    (hr : sizeRatio doc1.size_bytes doc2.size_bytes = some r) (h3 : 3 / 10 ≤ r) :
    (((contains doc1.path ".xlsx" || contains doc1.path ".xls") &&
        (contains doc2.path ".xlsx" || contains doc2.path ".xls")) = true →
      env.system (helperCommand env.current_path "excel_comparer.py".toList
        doc1.path doc2.path) ≠ 0 →
      areDocumentsSimilar env doc1 doc2 =
        if r > 8 / 10 ∧ calculateStringSimilarity (stem doc1.path) (stem doc2.path) > 7 / 10
        then (true, (r + calculateStringSimilarity (stem doc1.path) (stem doc2.path)) / 2)
        else (false, 0)) ∧
    (((contains doc1.path ".xlsx" || contains doc1.path ".xls") &&
        (contains doc2.path ".xlsx" || contains doc2.path ".xls")) = false →
      (contains doc1.path ".docx" && contains doc2.path ".docx") = true →
      env.system (helperCommand env.current_path "word_comparer.py".toList
        doc1.path doc2.path) ≠ 0 →
      areDocumentsSimilar env doc1 doc2 =
        (decide (calculateStringSimilarity (stem doc1.path) (stem doc2.path) > 7 / 10),
          calculateStringSimilarity (stem doc1.path) (stem doc2.path))) ∧
    (((contains doc1.path ".xlsx" || contains doc1.path ".xls") &&
        (contains doc2.path ".xlsx" || contains doc2.path ".xls")) = false →
      (contains doc1.path ".docx" && contains doc2.path ".docx") = false →
      (contains doc1.path ".pptx" && contains doc2.path ".pptx") = true →
      env.system (helperCommand env.current_path "powerpoint_comparer.py".toList
        doc1.path doc2.path) ≠ 0 →
      areDocumentsSimilar env doc1 doc2 = (false, 0)) := by
  rw [areDocumentsSimilar_of_ratio env doc1 doc2 r hr h3]
  refine ⟨fun c1 hs => ?_, fun c1 c2 hs => ?_, fun c1 c2 c3 hs => ?_⟩
  · rw [if_pos c1]
    unfold areExcelSimilar
    simp only []
    rw [if_pos hs, hr]
    by_cases h : r > 8 / 10 ∧ calculateStringSimilarity (stem doc1.path) (stem doc2.path) > 7 / 10
    · simp [h, h.1, h.2]
    · rw [if_neg h]
      rcases not_and_or.1 h with h | h <;> simp [h]
  · rw [c1, c2]
    simp only [Bool.false_eq_true, if_false, if_true]
    unfold areWordSimilar
    simp only []
    rw [if_pos hs]
  · rw [c1, c2, c3]
    simp only [Bool.false_eq_true, if_false, if_true]
    unfold arePowerPointSimilar
    simp only []
    rw [if_neg hs]
    simp only [hs, decide_False]

/-- Witness of C11 (amended): two `.docx` records of sizes 5 and 10. -/
theorem areDocumentsSimilar_helper_failure_witness :
    sizeRatio docReport.size_bytes docReportFinal.size_bytes = some (1 / 2) ∧
    (3 : ℚ) / 10 ≤ 1 / 2 ∧
    areDocumentsSimilar helperFailEnv docReport docReportFinal =
      (decide (calculateStringSimilarity (stem docReport.path) (stem docReportFinal.path)
          > 7 / 10),
        calculateStringSimilarity (stem docReport.path) (stem docReportFinal.path)) :=
  ⟨by simp [sizeRatio, docReport, docReportFinal]; norm_num, by norm_num,
    (areDocumentsSimilar_helper_failure helperFailEnv docReport docReportFinal (1 / 2)
      (by simp [sizeRatio, docReport, docReportFinal]; norm_num) (by norm_num)).2.1
      (by decide) (by decide) (by decide)⟩

/-- Claim C12, evaluated at the failing input: with a `.txt` record first and a
`.pdf` record second, stems scoring 0 and both files reading as the same text,
the pair is a match with score 1; with the two records swapped it is no match
with score 0. -/
theorem areDocumentsSimilar_text_fallback_first_only :
    sizeRatio docATxt.size_bytes docBPdf.size_bytes = some 1 ∧
    calculateStringSimilarity (stem docATxt.path) (stem docBPdf.path) = 0 ∧
    contains docBPdf.path ".txt" = false ∧ contains docBPdf.path ".csv" = false ∧
    areFilesSimilar helperFailEnv docATxt docBPdf = (true, 1) ∧
    areFilesSimilar helperFailEnv docBPdf docATxt = (false, 0) := by
  have r1 : sizeRatio docATxt.size_bytes docBPdf.size_bytes = some 1 := by
    simp [sizeRatio, docATxt, docBPdf]
  have r2 : sizeRatio docBPdf.size_bytes docATxt.size_bytes = some 1 := by
    simp [sizeRatio, docATxt, docBPdf]
  have s1 : calculateStringSimilarity (stem docATxt.path) (stem docBPdf.path) = 0 := by
    rw [similarity_when_unrelated _ _ (by decide) (by decide) (by decide) (by decide)]
    have : countCommon (toLowerStr (stem docATxt.path)) (toLowerStr (stem docBPdf.path)) 0
        = 0 := by decide
    rw [this]
    norm_num
  have s2 : calculateStringSimilarity (stem docBPdf.path) (stem docATxt.path) = 0 := by
    rw [similarity_when_unrelated _ _ (by decide) (by decide) (by decide) (by decide)]
    have : countCommon (toLowerStr (stem docBPdf.path)) (toLowerStr (stem docATxt.path)) 0
        = 0 := by decide
    rw [this]
    norm_num
  have t : calculateTextSimilarity (extractTextContent helperFailEnv docATxt)
      (extractTextContent helperFailEnv docBPdf) = 1 := by
    have e : extractTextContent helperFailEnv docBPdf
        = extractTextContent helperFailEnv docATxt := by decide
    rw [e, calculateTextSimilarity_eq, if_neg (by decide), Finset.inter_self, Finset.union_self]
    have : (extractWords (extractTextContent helperFailEnv docATxt)).card = 3 := by decide
    rw [this]
    norm_num
  refine ⟨r1, s1, by decide, by decide, ?_, ?_⟩
  · rw [areFilesSimilar_document _ _ _ rfl rfl,
      areDocumentsSimilar_of_ratio _ _ _ _ r1 (by norm_num), s1, t]
    have c1 : ((contains docATxt.path ".xlsx" || contains docATxt.path ".xls") &&
      (contains docBPdf.path ".xlsx" || contains docBPdf.path ".xls")) = false := by decide
    have c2 : (contains docATxt.path ".docx" && contains docBPdf.path ".docx") = false := by
      decide
    have c3 : (contains docATxt.path ".pptx" && contains docBPdf.path ".pptx") = false := by
      decide
    have c4 : (contains docATxt.path ".txt" || contains docATxt.path ".csv") = true := by
      decide
    rw [c1, c2, c3, c4]
    norm_num
  · rw [areFilesSimilar_document _ _ _ rfl rfl,
      areDocumentsSimilar_of_ratio _ _ _ _ r2 (by norm_num), s2]
    have c1 : ((contains docBPdf.path ".xlsx" || contains docBPdf.path ".xls") &&
      (contains docATxt.path ".xlsx" || contains docATxt.path ".xls")) = false := by decide
    have c2 : (contains docBPdf.path ".docx" && contains docATxt.path ".docx") = false := by
      decide
    have c3 : (contains docBPdf.path ".pptx" && contains docATxt.path ".pptx") = false := by
      decide
    have c4 : (contains docBPdf.path ".txt" || contains docBPdf.path ".csv") = false := by
      decide
    rw [c1, c2, c3, c4]
    norm_num

/-- Claim C13. For two audio records with lowercase stems `n1` and `n2`: equal
stems give `(match, 1.0)`; otherwise a stem that is the other one followed by
`1` or `2` gives `(match, 0.95)`; otherwise the pair matches exactly when
`calculateStringSimilarity n1 n2 > 0.9`, and carries that similarity as score. -/
theorem areAudioSimilar_cases (env : Env) (audio1 audio2 : FileInfo)
    (h1 : audio1.type = "audio") (h2 : audio2.type = "audio") :
    (toLowerStr (stem audio1.path) = toLowerStr (stem audio2.path) →
      areFilesSimilar env audio1 audio2 = (true, 1)) ∧
    (toLowerStr (stem audio1.path) ≠ toLowerStr (stem audio2.path) →
      (toLowerStr (stem audio1.path) ++ ['1'] = toLowerStr (stem audio2.path) ∨
        toLowerStr (stem audio2.path) ++ ['1'] = toLowerStr (stem audio1.path) ∨
        toLowerStr (stem audio1.path) ++ ['2'] = toLowerStr (stem audio2.path) ∨
        toLowerStr (stem audio2.path) ++ ['2'] = toLowerStr (stem audio1.path)) →
      areFilesSimilar env audio1 audio2 = (true, 95 / 100)) ∧
    (toLowerStr (stem audio1.path) ≠ toLowerStr (stem audio2.path) →
      ¬ (toLowerStr (stem audio1.path) ++ ['1'] = toLowerStr (stem audio2.path) ∨
        toLowerStr (stem audio2.path) ++ ['1'] = toLowerStr (stem audio1.path) ∨
        toLowerStr (stem audio1.path) ++ ['2'] = toLowerStr (stem audio2.path) ∨
        toLowerStr (stem audio2.path) ++ ['2'] = toLowerStr (stem audio1.path)) →
      areFilesSimilar env audio1 audio2 =
        (decide (calculateStringSimilarity (toLowerStr (stem audio1.path))
            (toLowerStr (stem audio2.path)) > 9 / 10),
          calculateStringSimilarity (toLowerStr (stem audio1.path))
            (toLowerStr (stem audio2.path)))) := by
  rw [areFilesSimilar_audio env _ _ h1 h2, calculateStringSimilarity_lower]
  unfold areAudioSimilar
  simp only []
  refine ⟨fun e => ?_, fun ne h => ?_, fun ne h => ?_⟩
  · rw [if_pos e]
  · rw [if_neg ne]
    by_cases c : toLowerStr (stem audio1.path) ++ ['1'] = toLowerStr (stem audio2.path) ∨
        toLowerStr (stem audio2.path) ++ ['1'] = toLowerStr (stem audio1.path)
    · rw [if_pos c]
    · rw [if_neg c, if_pos (by tauto)]
  · rw [if_neg ne, if_neg (by tauto), if_neg (by tauto)]

/-- Witness of C13: `Song.mp3` and `song1.flac`. -/
theorem areAudioSimilar_cases_witness :
    audioSong.type = "audio" ∧ audioSong1.type = "audio" ∧
    toLowerStr (stem audioSong.path) ≠ toLowerStr (stem audioSong1.path) ∧
    areFilesSimilar helperFailEnv audioSong audioSong1 = (true, 95 / 100) :=
  ⟨rfl, rfl, by decide,
    (areAudioSimilar_cases helperFailEnv audioSong audioSong1 rfl rfl).2.1 (by decide)
      (Or.inl (by decide))⟩

/-! ## The similarity scan -/

theorem getD_set_true (l : List Bool) (j x : Nat) (hj : j < l.length) :
    (l.set j true).getD x false = (decide (x = j) || l.getD x false) := by
  rw [List.getD_eq_getElem?_getD, List.getElem?_set, List.getD_eq_getElem?_getD]
  by_cases e : j = x
  · subst e
    simp [hj]
  · have : ¬ x = j := fun h => e h.symm
    simp [e, this]

theorem groupInv_start (env : Env) (files : List FileInfo) (i : Nat) (st : ScanState)
    (hlen : st.processed.length = files.length) :
    GroupInv env files i st 0
      { group := [(i, { files.getD i default with similarity_score := 1 })],
        processed := st.processed, calls := st.calls } := by
  refine ⟨hlen, ⟨[], rfl, by simp, by simp, by simp⟩, fun c hc => Or.inl hc⟩

theorem groupInv_step (env : Env) (files : List FileInfo) (i : Nat) (st : ScanState)
    (k : Nat) (gs : GroupState) (hi : st.processed.getD i false = false)
    (hk : i + 1 + k < files.length) (inv : GroupInv env files i st k gs) :
    GroupInv env files i st (k + 1) (compareWith env files i (i + 1 + k) gs) := by
  obtain ⟨hlen, ⟨ms, hg, hsort, hms, hflag⟩, hcalls⟩ := inv
  have hbound : ∀ m ∈ ms, m.1 < i + 1 + (k + 1) ∧ m.1 < files.length ∧
      st.processed.getD m.1 false = false ∧
      m.2 = { files.getD m.1 default with similarity_score := m.2.similarity_score } ∧
      areFilesSimilar env (files.getD i default) (files.getD m.1 default)
        = (true, m.2.similarity_score) := fun m hm => by
    obtain ⟨h1, h2⟩ := hms m hm
    exact ⟨by omega, h2⟩
  have hanchor : gs.processed.getD i false = false := by
    cases h : gs.processed.getD i false with
    | false => rfl
    | true =>
      rcases (hflag i).1 h with h' | ⟨m, hm, he⟩
      · rw [hi] at h'
        exact absurd h' (by simp)
      · have := (List.pairwise_cons.1 hsort).1 m.1 (List.mem_map_of_mem Prod.fst hm)
        omega
  unfold compareWith
  by_cases hj : gs.processed.getD (i + 1 + k) false = false
  · rw [if_pos hj]
    simp only []
    have hnew : ∀ c ∈ gs.calls ++
        [{ anchor := i, candidate := i + 1 + k, processed := gs.processed : Call }],
        c ∈ st.calls ∨
        (c.anchor = i ∧ i < c.candidate ∧ c.candidate < files.length ∧
          c.processed.getD i false = false ∧ c.processed.getD c.candidate false = false) := by
      intro c hc
      rcases List.mem_append.1 hc with h | h
      · exact hcalls c h
      · have : c = { anchor := i, candidate := i + 1 + k, processed := gs.processed } := by
          simpa using h
        subst this
        exact Or.inr ⟨rfl, by simp only []; omega, hk, hanchor, hj⟩
    by_cases hr : (areFilesSimilar env (files.getD i default)
        (files.getD (i + 1 + k) default)).1 = true
    · rw [if_pos hr]
      refine ⟨by simp only [List.length_set]; exact hlen,
        ⟨ms ++ [(i + 1 + k, { files.getD (i + 1 + k) default with
          similarity_score := (areFilesSimilar env (files.getD i default)
            (files.getD (i + 1 + k) default)).2 })], ?_, ?_, ?_, ?_⟩, hnew⟩
      · simp only [hg, List.cons_append]
      · rw [List.map_append, ← List.cons_append, List.pairwise_append]
        refine ⟨hsort, by simp, ?_⟩
        intro a ha b hb
        have hb' : b = i + 1 + k := by simpa using hb
        rcases List.mem_cons.1 ha with h | h
        · omega
        · obtain ⟨m, hm, rfl⟩ := List.mem_map.1 h
          have := (hms m hm).1
          omega
      · intro m hm
        rcases List.mem_append.1 hm with h | h
        · exact hbound m h
        · have hm' : m = (i + 1 + k, { files.getD (i + 1 + k) default with
              similarity_score := (areFilesSimilar env (files.getD i default)
                (files.getD (i + 1 + k) default)).2 }) := by simpa using h
          subst hm'
          refine ⟨by simp only []; omega, hk, ?_, rfl, Prod.ext hr rfl⟩
          cases h' : st.processed.getD (i + 1 + k) false with
          | false => rfl
          | true =>
            have := (hflag (i + 1 + k)).2 (Or.inl h')
            rw [hj] at this
            exact absurd this (by simp)
      · intro x
        simp only []
        rw [getD_set_true _ _ _ (by rw [hlen]; exact hk), Bool.or_eq_true, decide_eq_true_eq,
          hflag x]
        constructor
        · rintro (h | h | ⟨m, hm, he⟩)
          · exact Or.inr ⟨_, List.mem_append_right _ (List.mem_singleton_self _), h.symm⟩
          · exact Or.inl h
          · exact Or.inr ⟨m, List.mem_append_left _ hm, he⟩
        · rintro (h | ⟨m, hm, he⟩)
          · exact Or.inr (Or.inl h)
          · rcases List.mem_append.1 hm with h | h
            · exact Or.inr (Or.inr ⟨m, h, he⟩)
            · have hm' : m.1 = i + 1 + k := by
                have := List.mem_singleton.1 h
                rw [this]
              exact Or.inl (he ▸ hm')
    · rw [if_neg hr]
      exact ⟨hlen, ⟨ms, hg, hsort, hbound, hflag⟩, hnew⟩
  · rw [if_neg hj]
    exact ⟨hlen, ⟨ms, hg, hsort, hbound, hflag⟩, hcalls⟩

theorem groupInv_loop (env : Env) (files : List FileInfo) (i : Nat) (st : ScanState)
    (hi : st.processed.getD i false = false) (hlen : st.processed.length = files.length)
    (k : Nat) (hk : i + 1 + k ≤ files.length) :
    GroupInv env files i st k
      (forLoop k (fun k st => compareWith env files i (i + 1 + k) st)
        { group := [(i, { files.getD i default with similarity_score := 1 })],
          processed := st.processed, calls := st.calls }) := by
  induction k with
  | zero => exact groupInv_start env files i st hlen
  | succ k ih =>
    rw [forLoop_succ]
    exact groupInv_step env files i st k _ hi (by omega) (ih (by omega))

theorem buildGroup_inv (env : Env) (files : List FileInfo) (i : Nat) (st : ScanState)
    (hi : st.processed.getD i false = false) (hlen : st.processed.length = files.length)
    (hn : i < files.length) :
    GroupInv env files i st (files.length - (i + 1))
      (buildGroup env files i st.processed st.calls) := by
  unfold buildGroup
  exact groupInv_loop env files i st hi hlen _ (by omega)

theorem groupOk_mono (env : Env) (files : List FileInfo) (p p' : List Bool) (b b' : Nat)
    (g : List (Nat × FileInfo)) (hb : b ≤ b')
    (hfalse : ∀ x, x < b → p.getD x false = false → p'.getD x false = false)
    (htrue : ∀ x, p.getD x false = true → p'.getD x false = true)
    (h : GroupOk env files p b g) : GroupOk env files p' b' g := by
  obtain ⟨a, ms, hg, h1, h2, h3, h4, h5⟩ := h
  refine ⟨a, ms, hg, by omega, h2, hfalse a h1 h3, h4, fun m hm => ?_⟩
  obtain ⟨m1, m2, m3⟩ := h5 m hm
  exact ⟨m1, htrue _ m2, m3⟩

theorem groupOk_index (env : Env) (files : List FileInfo) (p : List Bool) (b : Nat)
    (g : List (Nat × FileInfo)) (h : GroupOk env files p b g) (x : Nat × FileInfo)
    (hx : x ∈ g) :
    (x.1 < b ∧ p.getD x.1 false = false) ∨ p.getD x.1 false = true := by
  obtain ⟨a, ms, hg, h1, _, h3, _, h5⟩ := h
  rw [hg] at hx
  rcases List.mem_cons.1 hx with e | e
  · rw [e]
    exact Or.inl ⟨h1, h3⟩
  · exact Or.inr (h5 x e).2.1

theorem scanInv_start (env : Env) (files : List FileInfo) :
    ScanInv env files 0
      { similarGroups := [], processed := List.replicate files.length false, calls := [] } where
  len := by simp
  groups := by simp
  nodup := by simp
  claimed := fun k h => by
    rw [List.getD_eq_getElem?_getD] at h
    by_cases hk : k < files.length
    · simp [List.getElem?_replicate, hk] at h
    · simp [List.getElem?_replicate, hk] at h
  calls := by simp

theorem scanInv_step (env : Env) (files : List FileInfo) (i : Nat) (st : ScanState)
    (hn : i < files.length) (inv : ScanInv env files i st) :
    ScanInv env files (i + 1) (scanStep env files i st) := by
  unfold scanStep
  by_cases hp : st.processed.getD i false = true
  · rw [if_pos hp]
    exact {
      len := inv.len
      groups := fun g hg =>
        ⟨groupOk_mono env files _ _ i (i + 1) g (by omega) (fun _ _ h => h) (fun _ h => h)
          (inv.groups g hg).1, (inv.groups g hg).2⟩
      nodup := inv.nodup
      claimed := inv.claimed
      calls := fun c hc => by
        obtain ⟨h1, h2, h3, h4, h5, h6⟩ := inv.calls c hc
        exact ⟨h1, h2, h3, h4, by omega, h6⟩ }
  · rw [if_neg hp]
    have hi : st.processed.getD i false = false := by
      cases h : st.processed.getD i false with
      | false => rfl
      | true => exact absurd h hp
    obtain ⟨hlen, ⟨ms, hg, hsort, hms, hflag⟩, hcalls⟩ :=
      buildGroup_inv env files i st hi inv.len hn
    have hgt : ∀ m ∈ ms, i < m.1 := fun m hm =>
      (List.pairwise_cons.1 hsort).1 m.1 (List.mem_map_of_mem Prod.fst hm)
    have hfalse : ∀ x, x < i + 1 → st.processed.getD x false = false →
        (buildGroup env files i st.processed st.calls).processed.getD x false = false := by
      intro x hx h
      cases h' : (buildGroup env files i st.processed st.calls).processed.getD x false with
      | false => rfl
      | true =>
        rcases (hflag x).1 h' with h'' | ⟨m, hm, he⟩
        · rw [h] at h''
          exact absurd h'' (by simp)
        · have := hgt m hm
          omega
    have htrue : ∀ x, st.processed.getD x false = true →
        (buildGroup env files i st.processed st.calls).processed.getD x false = true :=
      fun x h => (hflag x).2 (Or.inl h)
    have hold : ∀ g ∈ st.similarGroups,
        GroupOk env files (buildGroup env files i st.processed st.calls).processed (i + 1) g ∧
          2 ≤ g.length := fun g hg' =>
      ⟨groupOk_mono env files _ _ i (i + 1) g (by omega)
        (fun x hx h => hfalse x (by omega) h) htrue (inv.groups g hg').1, (inv.groups g hg').2⟩
    have hcalls' : ∀ c ∈ (buildGroup env files i st.processed st.calls).calls,
        c.anchor < c.candidate ∧ c.candidate < files.length ∧
        c.processed.getD c.anchor false = false ∧
        c.processed.getD c.candidate false = false ∧ c.anchor < i + 1 ∧
        (buildGroup env files i st.processed st.calls).processed.getD c.anchor false
          = false := by
      intro c hc
      rcases hcalls c hc with h | ⟨h1, h2, h3, h4, h5⟩
      · obtain ⟨c1, c2, c3, c4, c5, c6⟩ := inv.calls c h
        exact ⟨c1, c2, c3, c4, by omega, hfalse _ (by omega) c6⟩
      · rw [h1]
        exact ⟨h2, h3, h4, h5, by omega, hfalse i (by omega) hi⟩
    by_cases hl : (buildGroup env files i st.processed st.calls).group.length > 1
    · simp only [if_pos hl]
      have hnewok : GroupOk env files (buildGroup env files i st.processed st.calls).processed
          (i + 1) (buildGroup env files i st.processed st.calls).group :=
        ⟨i, ms, hg, by omega, hn, hfalse i (by omega) hi, hsort, fun m hm =>
          ⟨(hms m hm).2.1, (hflag m.1).2 (Or.inr ⟨m, hm, rfl⟩), (hms m hm).2.2.2⟩⟩
      exact {
        len := hlen
        groups := fun g hg' => by
          rcases List.mem_append.1 hg' with h | h
          · exact hold g h
          · rw [List.mem_singleton.1 h]
            exact ⟨hnewok, hl⟩
        nodup := by
          rw [List.flatten_append, List.map_append, List.nodup_append]
          refine ⟨inv.nodup, ?_, ?_⟩
          · simp only [List.flatten_cons, List.flatten_nil, List.append_nil, hg, List.map_cons]
            exact (hsort.imp (fun h => Nat.ne_of_lt h))
          · intro x hx1 hx2
            obtain ⟨y, hy, rfl⟩ := List.mem_map.1 hx1
            obtain ⟨g, hg1, hg2⟩ := List.mem_flatten.1 hy
            simp only [List.flatten_cons, List.flatten_nil, List.append_nil, hg, List.map_cons,
              List.mem_cons] at hx2
            have hst : st.processed.getD y.1 false = false ∧ i ≤ y.1 := by
              rcases hx2 with e | e
              · rw [e]
                exact ⟨hi, le_refl _⟩
              · obtain ⟨m, hm, hme⟩ := List.mem_map.1 e
                rw [← hme]
                exact ⟨(hms m hm).2.2.1, Nat.le_of_lt (hgt m hm)⟩
            rcases groupOk_index env files _ _ g (inv.groups g hg1).1 y hg2 with h | h
            · omega
            · rw [hst.1] at h
              exact absurd h (by simp)
        claimed := fun k hk => by
          rcases (hflag k).1 hk with h | ⟨m, hm, he⟩
          · obtain ⟨g, hg1, x, hx, hxe⟩ := inv.claimed k h
            exact ⟨g, List.mem_append_left _ hg1, x, hx, hxe⟩
          · refine ⟨_, List.mem_append_right _ (List.mem_singleton_self _), m, ?_, he⟩
            rw [hg]
            exact hm
        calls := hcalls' }
    · simp only [if_neg hl]
      have hnil : ms = [] := by
        cases ms with
        | nil => rfl
        | cons m ms' =>
          rw [hg] at hl
          simp at hl
      exact {
        len := hlen
        groups := hold
        nodup := inv.nodup
        claimed := fun k hk => by
          rcases (hflag k).1 hk with h | ⟨m, hm, _⟩
          · exact inv.claimed k h
          · rw [hnil] at hm
            exact absurd hm (List.not_mem_nil _)
        calls := hcalls' }

theorem scanInv_loop (env : Env) (files : List FileInfo) (i : Nat) (hi : i ≤ files.length) :
    ScanInv env files i (forLoop i (scanStep env files)
      { similarGroups := [], processed := List.replicate files.length false, calls := [] }) := by
  induction i with
  | zero => exact scanInv_start env files
  | succ i ih =>
    rw [forLoop_succ]
    exact scanInv_step env files i _ (by omega) (ih (by omega))

theorem scan_inv (env : Env) (files : List FileInfo) :
    ScanInv env files files.length (scan env files) :=
  scanInv_loop env files files.length (le_refl _)

theorem areFilesSimilar_score (env : Env) (f1 f2 : FileInfo) (s1 s2 : ℚ) :
    areFilesSimilar env { f1 with similarity_score := s1 } { f2 with similarity_score := s2 }
      = areFilesSimilar env f1 f2 := rfl

theorem findSimilarFiles_eq (env : Env) (files : List FileInfo) :
    findSimilarFiles env files
      = (scan env files).similarGroups.map (fun group => group.map Prod.snd) := rfl

/-- Claim C14. Every group emitted by `findSimilarFiles` starts with an anchor
`files[i]` carrying score 1; every other element is a record `files[j]` carrying
the score `s` for which `areFilesSimilar(anchor, files[j]) = (true, s)`; the
positions `i < j1 < j2 < ...` increase, so members come in catalog order after
the anchor. -/
theorem findSimilarFiles_groups (env : Env) (files : List FileInfo) :
    ∀ group ∈ findSimilarFiles env files,
      ∃ (i : Nat) (js : List Nat) (anchor : FileInfo) (members : List FileInfo),
        group = anchor :: members ∧
        anchor = { files.getD i default with similarity_score := 1 } ∧
        anchor.similarity_score = 1 ∧ i < files.length ∧
        List.Pairwise (· < ·) (i :: js) ∧
        List.Forall₂ (fun j m => j < files.length ∧
          m = { files.getD j default with similarity_score := m.similarity_score } ∧
          areFilesSimilar env anchor m = (true, m.similarity_score)) js members := by
  intro group hgroup
  rw [findSimilarFiles_eq] at hgroup
  obtain ⟨g, hg, rfl⟩ := List.mem_map.1 hgroup
  obtain ⟨⟨a, ms, hshape, _, h2, _, h4, h5⟩, _⟩ := (scan_inv env files).groups g hg
  refine ⟨a, ms.map Prod.fst, { files.getD a default with similarity_score := 1 },
    ms.map Prod.snd, by rw [hshape]; rfl, rfl, rfl, h2, h4, ?_⟩
  rw [List.forall₂_map_left_iff, List.forall₂_map_right_iff, List.forall₂_same]
  intro m hm
  obtain ⟨m1, _, m3, m4⟩ := h5 m hm
  refine ⟨m1, m3, ?_⟩
  rw [m3, areFilesSimilar_score]
  exact m4

/-- Claim C19. Every invocation of `areFilesSimilar` made by `findSimilarFiles`
compares `files[i]` with `files[j]` for positions `i < j`, neither of them
marked as processed at that moment; and no invocation has a non-anchor member
of an emitted group as its first argument, so two non-anchor members of one
group are never compared with each other. -/
theorem findSimilarFiles_calls (env : Env) (files : List FileInfo) :
    (∀ c ∈ (scan env files).calls,
      c.anchor < c.candidate ∧ c.candidate < files.length ∧
      c.processed.getD c.anchor false = false ∧
      c.processed.getD c.candidate false = false) ∧
    (∀ g ∈ (scan env files).similarGroups, ∀ x ∈ g.tail,
      ∀ c ∈ (scan env files).calls, c.anchor ≠ x.1) ∧
    (∀ g ∈ (scan env files).similarGroups, ∀ x ∈ g.tail, ∀ y ∈ g.tail,
      ∀ c ∈ (scan env files).calls, ¬ (c.anchor = x.1 ∧ c.candidate = y.1)) := by
  have key : ∀ g ∈ (scan env files).similarGroups, ∀ x ∈ g.tail,
      ∀ c ∈ (scan env files).calls, c.anchor ≠ x.1 := by
    intro g hg x hx c hc e
    obtain ⟨⟨a, ms, hshape, _, _, _, _, h5⟩, _⟩ := (scan_inv env files).groups g hg
    rw [hshape] at hx
    have h1 := (h5 x hx).2.1
    have h2 := ((scan_inv env files).calls c hc).2.2.2.2.2
    rw [e, h1] at h2
    exact absurd h2 (by simp)
  refine ⟨fun c hc => ?_, key, fun g hg x hx y _ c hc h => key g hg x hx c hc h.1⟩
  obtain ⟨h1, h2, h3, h4, _, _⟩ := (scan_inv env files).calls c hc
  exact ⟨h1, h2, h3, h4⟩

/-- Claim C20. The groups emitted by `findSimilarFiles` are disjoint by input
position: listing the positions of all members of all groups gives no position
twice; every group has at least two members; and the anchor of a group is not
marked in `processed` when the scan ends. -/
theorem findSimilarFiles_disjoint (env : Env) (files : List FileInfo) :
    ((scan env files).similarGroups.flatten.map Prod.fst).Nodup ∧
    (∀ g ∈ (scan env files).similarGroups, ∀ x ∈ g, x.1 < files.length ∧
      x.2 = { files.getD x.1 default with similarity_score := x.2.similarity_score }) ∧
    (∀ g ∈ (scan env files).similarGroups, 2 ≤ g.length) ∧
    (∀ group ∈ findSimilarFiles env files, 2 ≤ group.length) ∧
    (∀ g ∈ (scan env files).similarGroups, ∀ x, g.head? = some x →
      (scan env files).processed.getD x.1 false = false) := by
  refine ⟨(scan_inv env files).nodup, fun g hg x hx => ?_,
    fun g hg => ((scan_inv env files).groups g hg).2, fun group hgroup => ?_,
    fun g hg x hx => ?_⟩
  · obtain ⟨⟨a, ms, hshape, _, h2, _, _, h5⟩, _⟩ := (scan_inv env files).groups g hg
    rw [hshape] at hx
    rcases List.mem_cons.1 hx with e | e
    · rw [e]
      exact ⟨h2, rfl⟩
    · exact ⟨(h5 x e).1, (h5 x e).2.2.1⟩
  · rw [findSimilarFiles_eq] at hgroup
    obtain ⟨g, hg, rfl⟩ := List.mem_map.1 hgroup
    rw [List.length_map]
    exact ((scan_inv env files).groups g hg).2
  · obtain ⟨⟨a, ms, hshape, _, _, h3, _, _⟩, _⟩ := (scan_inv env files).groups g hg
    rw [hshape] at hx
    simp only [List.head?_cons, Option.some.injEq] at hx
    rw [← hx]
    exact h3

theorem findSimilarFiles_paths (env : Env) (files : List FileInfo) :
    ∀ group ∈ findSimilarFiles env files, ∀ m ∈ group, ∃ f ∈ files, m.path = f.path := by
  intro group hgroup m hm
  rw [findSimilarFiles_eq] at hgroup
  obtain ⟨g, hg, rfl⟩ := List.mem_map.1 hgroup
  obtain ⟨x, hx, rfl⟩ := List.mem_map.1 hm
  obtain ⟨⟨a, ms, hshape, _, h2, _, _, h5⟩, _⟩ := (scan_inv env files).groups g hg
  rw [hshape] at hx
  have hget : ∀ j, j < files.length → files.getD j default ∈ files := fun j hj => by
    rw [List.getD_eq_getElem _ _ hj]
    exact List.getElem_mem _
  rcases List.mem_cons.1 hx with e | e
  · rw [e]
    exact ⟨_, hget a h2, rfl⟩
  · refine ⟨_, hget x.1 (h5 x e).1, ?_⟩
    rw [(h5 x e).2.2.1]

/-! ## Exact duplicates -/

theorem mem_insertEntry (e x : Str × List FileInfo) (m : HashMap) :
    x ∈ insertEntry e m ↔ x = e ∨ x ∈ m := by
  induction m with
  | nil => simp [insertEntry]
  | cons e' m ih =>
    unfold insertEntry
    split
    · simp
    · simp only [List.mem_cons, ih]
      tauto

theorem insertEntry_keys_nodup (e : Str × List FileInfo) (m : HashMap)
    (hn : (m.map Prod.fst).Nodup) (hk : e.1 ∉ m.map Prod.fst) :
    ((insertEntry e m).map Prod.fst).Nodup := by
  induction m with
  | nil => simp [insertEntry]
  | cons e' m ih =>
    unfold insertEntry
    split
    · simp only [List.map_cons, List.nodup_cons]
      exact ⟨by simpa using hk, by simpa using hn⟩
    · simp only [List.map_cons, List.nodup_cons, List.mem_cons, not_or] at hn hk ⊢
      refine ⟨?_, ih hn.2 hk.2⟩
      intro hmem
      obtain ⟨x, hx, hx1⟩ := List.mem_map.1 hmem
      rcases (mem_insertEntry e x m).1 hx with h | h
      · subst h
        exact hk.1 hx1
      · exact hn.1 (hx1 ▸ List.mem_map_of_mem Prod.fst h)

theorem bucketsOf_step (calculateHash : Str → Str) (pre : List FileInfo) (m : HashMap)
    (file : FileInfo) (hm : BucketsOf calculateHash pre m) :
    BucketsOf calculateHash (pre ++ [file])
      (if calculateHash file.path ≠ [] then pushBack m (calculateHash file.path) file
        else m) := by
  obtain ⟨hn, hc⟩ := hm
  by_cases hh : calculateHash file.path = []
  · rw [if_neg (by simpa using hh)]
    refine ⟨hn, fun k v => ?_⟩
    rw [hc, List.filter_append]
    by_cases hk : k = []
    · simp [hk]
    · have : ¬ calculateHash file.path = k := fun e => hk (e ▸ hh)
      simp [this]
  · rw [if_pos hh]
    unfold pushBack
    by_cases hany : m.any (fun e => e.1 = calculateHash file.path) = true
    · rw [if_pos hany]
      obtain ⟨e0, he0, hk0⟩ := List.any_eq_true.1 hany
      have hk0 : e0.1 = calculateHash file.path := by simpa using hk0
      refine ⟨?_, fun k v => ?_⟩
      · have : (m.map (fun e => if e.1 = calculateHash file.path
            then (e.1, e.2 ++ [file]) else e)).map Prod.fst = m.map Prod.fst := by
          rw [List.map_map]
          apply List.map_congr_left
          intro e _
          simp only [Function.comp]
          split <;> rfl
        rw [this]
        exact hn
      · rw [List.mem_map, List.filter_append]
        constructor
        · rintro ⟨e, he, heq⟩
          by_cases c : e.1 = calculateHash file.path
          · rw [if_pos c] at heq
            obtain ⟨h1, h2, h3⟩ := (hc e.1 e.2).1 he
            have hk : k = e.1 := (congrArg Prod.fst heq).symm
            have hv : v = e.2 ++ [file] := (congrArg Prod.snd heq).symm
            subst hk
            refine ⟨h1, ?_, by rw [hv]; simp⟩
            rw [hv, h2]
            simp [c]
          · rw [if_neg c] at heq
            have ck : ¬ calculateHash file.path = k := by
              intro x
              apply c
              rw [heq]
              exact x.symm
            obtain ⟨h1, h2, h3⟩ := (hc k v).1 (heq ▸ he)
            refine ⟨h1, ?_, h3⟩
            simpa [ck] using h2
        · rintro ⟨h1, h2, h3⟩
          by_cases c : k = calculateHash file.path
          · refine ⟨e0, he0, ?_⟩
            rw [if_pos hk0]
            obtain ⟨_, g2, _⟩ := (hc e0.1 e0.2).1 he0
            rw [h2, c, ← hk0]
            refine Prod.ext rfl ?_
            simp only
            rw [g2, hk0]
            simp
          · have c' : ¬ calculateHash file.path = k := fun x => c x.symm
            have hv : v = pre.filter (fun f => calculateHash f.path = k) := by
              simpa [c'] using h2
            refine ⟨(k, v), (hc k v).2 ⟨h1, hv, ?_⟩, by rw [if_neg c]⟩
            exact h3
    · rw [if_neg hany]
      have hnot : calculateHash file.path ∉ m.map Prod.fst := by
        intro hmem
        obtain ⟨e, he, hk⟩ := List.mem_map.1 hmem
        exact hany (List.any_eq_true.2 ⟨e, he, by simpa using hk⟩)
      have hempty : pre.filter (fun f => calculateHash f.path = calculateHash file.path) = [] := by
        by_contra hne
        exact hnot (List.mem_map.2 ⟨(calculateHash file.path, _),
          (hc _ _).2 ⟨hh, rfl, hne⟩, rfl⟩)
      refine ⟨insertEntry_keys_nodup _ _ hn hnot, fun k v => ?_⟩
      rw [mem_insertEntry, hc, List.filter_append]
      constructor
      · rintro (h | ⟨h1, h2, h3⟩)
        · have hk : k = calculateHash file.path := congrArg Prod.fst h
          have hv : v = [file] := congrArg Prod.snd h
          subst hk
          refine ⟨hh, ?_, by rw [hv]; simp⟩
          rw [hv, hempty]
          simp
        · have c : ¬ calculateHash file.path = k := by
            intro x
            subst x
            exact h3 (h2.trans hempty)
          refine ⟨h1, by simpa [c] using h2, by simpa [c, ← h2] using h3⟩
      · rintro ⟨h1, h2, h3⟩
        by_cases c : calculateHash file.path = k
        · left
          subst c
          rw [h2, hempty]
          simp
        · right
          have hv : v = pre.filter (fun f => calculateHash f.path = k) := by
            simpa [c] using h2
          exact ⟨h1, hv, h3⟩

theorem bucketsOf_foldl (calculateHash : Str → Str) (files : List FileInfo) :
    BucketsOf calculateHash files
      (files.foldl (fun duplicates file =>
        if calculateHash file.path ≠ [] then pushBack duplicates (calculateHash file.path) file
        else duplicates) []) := by
  induction files using List.reverseRecOn with
  | nil => exact ⟨by simp, fun k v => by simp⟩
  | append_singleton pre file ih =>
    rw [List.foldl_append]
    exact bucketsOf_step calculateHash pre _ file ih

theorem findExactDuplicates_mem (calculateHash : Str → Str) (files : List FileInfo) :
    ((findExactDuplicates calculateHash files).map Prod.fst).Nodup ∧
    ∀ k v, (k, v) ∈ findExactDuplicates calculateHash files ↔
      k ≠ [] ∧ v = files.filter (fun f => calculateHash f.path = k) ∧ 2 ≤ v.length := by
  obtain ⟨hn, hc⟩ := bucketsOf_foldl calculateHash files
  unfold findExactDuplicates
  simp only []
  refine ⟨(List.Sublist.map _ (List.filter_sublist _)).nodup hn, fun k v => ?_⟩
  rw [List.mem_filter, hc]
  simp only [not_lt, decide_eq_true_eq]
  constructor
  · rintro ⟨⟨h1, h2, _⟩, h4⟩
    exact ⟨h1, h2, h4⟩
  · rintro ⟨h1, h2, h4⟩
    refine ⟨⟨h1, h2, ?_⟩, h4⟩
    intro e
    rw [e] at h4
    simp at h4

/-- Claim C15. `findExactDuplicates` returns one bucket per digest shared by at
least two records with a present digest: keys are not repeated; `(k, v)` is a
bucket exactly when `k` is a present digest and `v`, the records of `files` with
digest `k` in catalog order, has at least two members; no bucket has fewer than
two members, and no record with an absent digest is in a bucket. -/
theorem findExactDuplicates_buckets (calculateHash : Str → Str) (files : List FileInfo) :
    ((findExactDuplicates calculateHash files).map Prod.fst).Nodup ∧
    (∀ k v, (k, v) ∈ findExactDuplicates calculateHash files ↔
      k ≠ [] ∧ v = files.filter (fun f => calculateHash f.path = k) ∧ 2 ≤ v.length) ∧
    (∀ e ∈ findExactDuplicates calculateHash files, 2 ≤ e.2.length) ∧
    (∀ e ∈ findExactDuplicates calculateHash files, ∀ f ∈ e.2,
      f ∈ files ∧ calculateHash f.path = e.1 ∧ calculateHash f.path ≠ []) := by
  obtain ⟨hn, hc⟩ := findExactDuplicates_mem calculateHash files
  refine ⟨hn, hc, fun e he => ((hc e.1 e.2).1 he).2.2, fun e he f hf => ?_⟩
  obtain ⟨h1, h2, _⟩ := (hc e.1 e.2).1 he
  rw [h2, List.mem_filter] at hf
  have : calculateHash f.path = e.1 := by simpa using hf.2
  exact ⟨hf.1, this, this ▸ h1⟩

theorem printExact_foldl (m : HashMap) (init : List Str) (h : ∀ e ∈ m, 2 ≤ e.2.length) :
    m.foldl (fun out e =>
      if e.2.length > 1 then
        out ++ ["EXACT|1.0".toList] ++ e.2.map (fun file => file.path)
          ++ ["---GROUP---".toList]
      else out) init = init ++ m.flatMap exactGroupLines := by
  induction m generalizing init with
  | nil => simp
  | cons e m ih =>
    have he : e.2.length > 1 := h e (List.mem_cons_self _ _)
    rw [List.foldl_cons, if_pos he, ih _ (fun x hx => h x (List.mem_cons_of_mem _ hx)),
      List.flatMap_cons]
    simp [exactGroupLines, List.append_assoc]

theorem printExact_eq (calculateHash : Str → Str) (files : List FileInfo) :
    printExact (findExactDuplicates calculateHash files)
      = (findExactDuplicates calculateHash files).flatMap exactGroupLines := by
  unfold printExact
  rw [printExact_foldl _ _ (fun e he =>
    (((findExactDuplicates_mem calculateHash files).2 e.1 e.2).1 he).2.2)]
  rfl

theorem main_output (env : Env) (calculateHash : Str → Str) (findFiles : Str → List FileInfo)
    (argv : List Str) (hargs : 2 ≤ argv.length) (hfiles : findFiles (argv.getD 1 []) ≠ []) :
    main env calculateHash findFiles argv =
      (printExact (findExactDuplicates calculateHash (findFiles (argv.getD 1 [])))
        ++ (if 3 ≤ argv.length ∧ argv.getD 2 [] = "--similar".toList then
            printSimilar (findSimilarFiles env
              (filesForSimilarity (findFiles (argv.getD 1 []))
                (findExactDuplicates calculateHash (findFiles (argv.getD 1 [])))))
          else []), 0) := by
  unfold main
  rw [if_neg (by omega), if_neg hfiles]
  simp only [Bool.and_eq_true, decide_eq_true_eq, ge_iff_le]
  by_cases h : 3 ≤ argv.length ∧ argv.getD 2 [] = "--similar".toList
  · rw [if_pos h, if_pos h]
  · rw [if_neg h, if_neg h, List.append_nil]

/-- Counterexample to C18: for the two files `a.txt` and `a_copy.txt` with equal
digests the header line written is `EXACT|1.0`, not `EXACT|1.00`. -/
theorem main_exact_header_counterexample :
    (main helperFailEnv constantHash twoTextFiles ["dupes".toList, "dir".toList]).1
      = ["EXACT|1.0".toList, "a.txt".toList, "a_copy.txt".toList, "---GROUP---".toList] ∧
    "EXACT|1.0".toList ≠ "EXACT|1.00".toList := by
  constructor
  · rw [main_output _ _ _ _ (by decide) (by decide), if_neg (by decide), List.append_nil]
    decide
  · decide

/-- Claim C18, amended. The lines written for the exact duplicates are, bucket
after bucket, the header line `EXACT|1.0`, the paths of the members in bucket
order, and the line `---GROUP---`; they come first on standard output. -/
theorem main_exact_lines (env : Env) (calculateHash : Str → Str)
    (findFiles : Str → List FileInfo) (argv : List Str) (hargs : 2 ≤ argv.length)
    (hfiles : findFiles (argv.getD 1 []) ≠ []) :
    printExact (findExactDuplicates calculateHash (findFiles (argv.getD 1 [])))
      = (findExactDuplicates calculateHash (findFiles (argv.getD 1 []))).flatMap
          (fun e => ["EXACT|1.0".toList] ++ e.2.map (fun file => file.path)
            ++ ["---GROUP---".toList]) ∧
    (main env calculateHash findFiles argv).1 =
      printExact (findExactDuplicates calculateHash (findFiles (argv.getD 1 [])))
        ++ (if 3 ≤ argv.length ∧ argv.getD 2 [] = "--similar".toList then
            printSimilar (findSimilarFiles env
              (filesForSimilarity (findFiles (argv.getD 1 []))
                (findExactDuplicates calculateHash (findFiles (argv.getD 1 [])))))
          else []) := by
  rw [main_output env calculateHash findFiles argv hargs hfiles]
  exact ⟨printExact_eq _ _, rfl⟩

/-- Witness of C18 (amended): a run over `a.txt` and `a_copy.txt`. -/
theorem main_exact_lines_witness :
    2 ≤ ["dupes".toList, "dir".toList].length ∧
    twoTextFiles (["dupes".toList, "dir".toList].getD 1 []) ≠ [] ∧
    (main helperFailEnv constantHash twoTextFiles ["dupes".toList, "dir".toList]).1 =
      printExact (findExactDuplicates constantHash
          (twoTextFiles (["dupes".toList, "dir".toList].getD 1 [])))
        ++ (if 3 ≤ ["dupes".toList, "dir".toList].length ∧
              ["dupes".toList, "dir".toList].getD 2 [] = "--similar".toList then
            printSimilar (findSimilarFiles helperFailEnv
              (filesForSimilarity (twoTextFiles (["dupes".toList, "dir".toList].getD 1 []))
                (findExactDuplicates constantHash
                  (twoTextFiles (["dupes".toList, "dir".toList].getD 1 [])))))
          else []) :=
  ⟨by decide, by decide,
    (main_exact_lines helperFailEnv constantHash twoTextFiles ["dupes".toList, "dir".toList]
      (by decide) (by decide)).2⟩

theorem mem_exactDupPaths_foldl (bucket : List FileInfo) (paths : Finset Str) (p : Str) :
    p ∈ bucket.foldl (fun paths file => insert file.path paths) paths
      ↔ p ∈ paths ∨ ∃ f ∈ bucket, f.path = p := by
  induction bucket generalizing paths with
  | nil => simp
  | cons f bucket ih =>
    rw [List.foldl_cons, ih, Finset.mem_insert]
    simp only [List.mem_cons, exists_eq_or_imp]
    constructor
    · rintro ((h | h) | h)
      · exact Or.inr (Or.inl h.symm)
      · exact Or.inl h
      · exact Or.inr (Or.inr h)
    · rintro (h | h | h)
      · exact Or.inl (Or.inr h)
      · exact Or.inl (Or.inl h.symm)
      · exact Or.inr h

theorem mem_exactDupPaths_aux (m : HashMap) (paths : Finset Str) (p : Str) :
    p ∈ m.foldl (fun paths e =>
        e.2.foldl (fun paths file => insert file.path paths) paths) paths
      ↔ p ∈ paths ∨ ∃ e ∈ m, ∃ f ∈ e.2, f.path = p := by
  induction m generalizing paths with
  | nil => simp
  | cons e m ih =>
    rw [List.foldl_cons, ih, mem_exactDupPaths_foldl]
    simp only [List.mem_cons, exists_eq_or_imp]
    constructor
    · rintro ((h | h) | h)
      · exact Or.inl h
      · exact Or.inr (Or.inl h)
      · exact Or.inr (Or.inr h)
    · rintro (h | h | h)
      · exact Or.inl (Or.inl h)
      · exact Or.inl (Or.inr h)
      · exact Or.inr h

theorem mem_exactDupPaths (m : HashMap) (p : Str) :
    p ∈ exactDupPaths m ↔ ∃ e ∈ m, ∃ f ∈ e.2, f.path = p := by
  unfold exactDupPaths
  rw [mem_exactDupPaths_aux]
  simp

theorem filesForSimilarity_path (files : List FileInfo) (m : HashMap) :
    ∀ f ∈ filesForSimilarity files m, f ∈ files ∧ ∀ e ∈ m, ∀ d ∈ e.2, f.path ≠ d.path := by
  intro f hf
  unfold filesForSimilarity at hf
  rw [List.mem_filter] at hf
  refine ⟨hf.1, fun e he d hd heq => ?_⟩
  have : f.path ∉ exactDupPaths m := by simpa using hf.2
  exact this ((mem_exactDupPaths m f.path).2 ⟨e, he, d, hd, heq.symm⟩)

/-- Claim C16. In a run with `--similar`, the approximate pass works on
`filesForSimilarity`: every record handed to `findSimilarFiles`, and every
record of every group it emits, has a path that no member of an
exact-duplicate group has. -/
theorem main_similar_avoids_exact (env : Env) (calculateHash : Str → Str)
    (findFiles : Str → List FileInfo) (argv : List Str) (hargs : 3 ≤ argv.length)
    (hflag : argv.getD 2 [] = "--similar".toList)
    (hfiles : findFiles (argv.getD 1 []) ≠ []) :
    (main env calculateHash findFiles argv).1 =
      printExact (findExactDuplicates calculateHash (findFiles (argv.getD 1 [])))
        ++ printSimilar (findSimilarFiles env
            (filesForSimilarity (findFiles (argv.getD 1 []))
              (findExactDuplicates calculateHash (findFiles (argv.getD 1 []))))) ∧
    (∀ f ∈ filesForSimilarity (findFiles (argv.getD 1 []))
        (findExactDuplicates calculateHash (findFiles (argv.getD 1 []))),
      ∀ e ∈ findExactDuplicates calculateHash (findFiles (argv.getD 1 [])),
        ∀ d ∈ e.2, f.path ≠ d.path) ∧
    (∀ group ∈ findSimilarFiles env (filesForSimilarity (findFiles (argv.getD 1 []))
        (findExactDuplicates calculateHash (findFiles (argv.getD 1 [])))),
      ∀ m ∈ group, ∀ e ∈ findExactDuplicates calculateHash (findFiles (argv.getD 1 [])),
        ∀ d ∈ e.2, m.path ≠ d.path) := by
  refine ⟨?_, fun f hf => (filesForSimilarity_path _ _ f hf).2, fun group hg m hm => ?_⟩
  · rw [main_output env calculateHash findFiles argv (by omega) hfiles, if_pos ⟨hargs, hflag⟩]
  · obtain ⟨f, hf, hp⟩ := findSimilarFiles_paths env _ group hg m hm
    rw [hp]
    exact (filesForSimilarity_path _ _ f hf).2

/-! ## The average score of a group -/

theorem areFilesSimilar_image (env : Env) (f1 f2 : FileInfo)
    (h1 : f1.type = "image") (h2 : f2.type = "image") :
    areFilesSimilar env f1 f2 = areImagesSimilar env f1 f2 := by
  unfold areFilesSimilar
  rw [h1, h2]
  simp

theorem areFilesSimilar_three_bits (env : Env) (b c : FileInfo)
    (hb : b.type = "image") (hc : c.type = "image")
    (h1 : calculateImageHash env b.path ≠ 0) (h2 : calculateImageHash env c.path ≠ 0)
    (hd : differingBits (calculateImageHash env b.path) (calculateImageHash env c.path) = 3) :
    areFilesSimilar env b c = (true, 61 / 64) := by
  rw [areFilesSimilar_image env b c hb hc, areImagesSimilar_eq, if_neg (by tauto), hd,
    if_pos (by decide)]
  norm_num

theorem buildGroup_pair (env : Env) (b c : FileInfo) (s : ℚ)
    (h : areFilesSimilar env b c = (true, s)) :
    buildGroup env [b, c] 0 [false, false] [] =
      { group := [(0, { b with similarity_score := 1 }), (1, { c with similarity_score := s })],
        processed := [false, true],
        calls := [{ anchor := 0, candidate := 1, processed := [false, false] }] } := by
  unfold buildGroup
  show forLoop (0 + 1) _ _ = _
  rw [forLoop_succ, forLoop_zero]
  simp [compareWith, h]

theorem findSimilarFiles_pair (env : Env) (b c : FileInfo) (s : ℚ)
    (h : areFilesSimilar env b c = (true, s)) :
    findSimilarFiles env [b, c]
      = [[{ b with similarity_score := 1 }, { c with similarity_score := s }]] := by
  have e2 : scan env [b, c] = scanStep env [b, c] 1 (scanStep env [b, c] 0
      { similarGroups := [], processed := List.replicate [b, c].length false, calls := [] }) := by
    unfold scan
    show forLoop (0 + 1 + 1) _ _ = _
    rw [forLoop_succ, forLoop_succ, forLoop_zero]
  unfold findSimilarFiles
  rw [e2]
  have e0 : scanStep env [b, c] 0
      { similarGroups := [], processed := List.replicate [b, c].length false, calls := [] } =
      { similarGroups := [[(0, { b with similarity_score := 1 }),
          (1, { c with similarity_score := s })]],
        processed := [false, true],
        calls := [{ anchor := 0, candidate := 1, processed := [false, false] }] } := by
    unfold scanStep
    simp [buildGroup_pair env b c s h]
  rw [e0]
  simp [scanStep]

theorem roundHalfEven_of_lt (x : ℚ) (n : Int) (h1 : (n : ℚ) ≤ x) (h2 : x < n + 1 / 2) :
    roundHalfEven x = n := by
  have hfl : ⌊x⌋ = n := by
    rw [Int.floor_eq_iff]
    exact ⟨h1, by linarith⟩
  unfold roundHalfEven
  simp only [hfl]
  rw [if_pos (by linarith)]

theorem roundHalfEven_of_gt (x : ℚ) (n : Int) (h1 : (n : ℚ) + 1 / 2 < x) (h2 : x < n + 1) :
    roundHalfEven x = n + 1 := by
  have hfl : ⌊x⌋ = n := by
    rw [Int.floor_eq_iff]
    exact ⟨by linarith, h2⟩
  unfold roundHalfEven
  simp only [hfl]
  rw [if_neg (by linarith), if_pos (by linarith)]

theorem formatFixed2_one : formatFixed2 1 = "1.00".toList := by
  have h : roundHalfEven (1 * 100) = 100 := roundHalfEven_of_lt _ 100 (by norm_num) (by norm_num)
  unfold formatFixed2
  simp only [h]
  decide

theorem formatFixed2_61_64 : formatFixed2 (61 / 64) = "0.95".toList := by
  have h : roundHalfEven (61 / 64 * 100) = 95 :=
    roundHalfEven_of_lt _ 95 (by norm_num) (by norm_num)
  unfold formatFixed2
  simp only [h]
  decide

theorem formatFixed2_125_128 : formatFixed2 (125 / 128) = "0.98".toList := by
  have h : roundHalfEven (125 / 128 * 100) = 97 + 1 :=
    roundHalfEven_of_gt _ 97 (by norm_num) (by norm_num)
  unfold formatFixed2
  simp only [h]
  decide

theorem avgScore_pair (b c : FileInfo) (s : ℚ) :
    avgScore [{ b with similarity_score := 1 }, { c with similarity_score := s }]
      = (1 + s) / 2 := by
  unfold avgScore
  simp only [List.foldl_cons, List.foldl_nil, List.length_cons, List.length_nil]
  norm_num

theorem printSimilar_pair (env : Env) (b c : FileInfo)
    (h : areFilesSimilar env b c = (true, 61 / 64)) :
    avgScore [{ b with similarity_score := 1 }, { c with similarity_score := 61 / 64 }]
      = 125 / 128 ∧
    printSimilar (findSimilarFiles env [b, c])
      = ["SIMILAR|0.98".toList, b.path ++ "|1.00".toList, c.path ++ "|0.95".toList,
          "---GROUP---".toList] := by
  have ha : avgScore [{ b with similarity_score := 1 }, { c with similarity_score := 61 / 64 }]
      = 125 / 128 := by
    rw [avgScore_pair]
    norm_num
  refine ⟨ha, ?_⟩
  rw [findSimilarFiles_pair env b c _ h]
  unfold printSimilar
  simp only [List.foldl_cons, List.foldl_nil, List.length_cons, List.length_nil, ha,
    formatFixed2_125_128, List.map_cons, List.map_nil, formatFixed2_one, formatFixed2_61_64]
  simp

theorem areFilesSimilar_jpg :
    differingBits (calculateImageHash jpgEnv imageBJpg.path)
      (calculateImageHash jpgEnv imageCJpg.path) = 3 ∧
    areFilesSimilar jpgEnv imageBJpg imageCJpg = (true, 61 / 64) := by
  have hB : calculateImageHash jpgEnv imageBJpg.path = imageHash fourRowsImage := rfl
  have hC : calculateImageHash jpgEnv imageCJpg.path = imageHash oneRowImage := rfl
  have vB : imageHash fourRowsImage = 269488144 := by decide
  have vC : imageHash oneRowImage = 16 := by decide
  have hd : differingBits (calculateImageHash jpgEnv imageBJpg.path)
      (calculateImageHash jpgEnv imageCJpg.path) = 3 := by
    rw [hB, hC, vB, vC]
    decide
  exact ⟨hd, areFilesSimilar_three_bits jpgEnv imageBJpg imageCJpg rfl rfl
    (by rw [hB, vB]; decide) (by rw [hC, vC]; decide) hd⟩

/-- Witness of C14: the group emitted for `b.jpg` and `c.jpg`. -/
theorem findSimilarFiles_groups_witness :
    [{ imageBJpg with similarity_score := 1 }, { imageCJpg with similarity_score := 61 / 64 }]
      ∈ findSimilarFiles jpgEnv [imageBJpg, imageCJpg] ∧
    ∃ (i : Nat) (js : List Nat) (anchor : FileInfo) (members : List FileInfo),
      [{ imageBJpg with similarity_score := 1 },
          { imageCJpg with similarity_score := 61 / 64 }] = anchor :: members ∧
      anchor = { [imageBJpg, imageCJpg].getD i default with similarity_score := 1 } ∧
      anchor.similarity_score = 1 ∧ i < [imageBJpg, imageCJpg].length ∧
      List.Pairwise (· < ·) (i :: js) ∧
      List.Forall₂ (fun j m => j < [imageBJpg, imageCJpg].length ∧
        m = { [imageBJpg, imageCJpg].getD j default with
          similarity_score := m.similarity_score } ∧
        areFilesSimilar jpgEnv anchor m = (true, m.similarity_score)) js members :=
  ⟨by rw [findSimilarFiles_pair _ _ _ _ areFilesSimilar_jpg.2]; exact List.mem_singleton_self _,
    findSimilarFiles_groups jpgEnv [imageBJpg, imageCJpg] _
      (by rw [findSimilarFiles_pair _ _ _ _ areFilesSimilar_jpg.2];
          exact List.mem_singleton_self _)⟩

/-- Counterexample to C17: for `b.jpg` and `c.jpg` with hashes three bits apart
the group is `[b.jpg (1), c.jpg (61/64)]`; the average computed for the header
is `125/128`, not `1 - 3/64`, and the header line is `SIMILAR|0.98`. -/
theorem main_similar_average_counterexample :
    differingBits (calculateImageHash jpgEnv imageBJpg.path)
      (calculateImageHash jpgEnv imageCJpg.path) = 3 ∧
    findSimilarFiles jpgEnv [imageBJpg, imageCJpg]
      = [[{ imageBJpg with similarity_score := 1 },
          { imageCJpg with similarity_score := 61 / 64 }]] ∧
    avgScore [{ imageBJpg with similarity_score := 1 },
        { imageCJpg with similarity_score := 61 / 64 }] = 125 / 128 ∧
    (125 : ℚ) / 128 ≠ 1 - 3 / 64 ∧
    (main jpgEnv pathHash twoJpgFiles
        ["dupes".toList, "dir".toList, "--similar".toList]).1
      = ["SIMILAR|0.98".toList, "b.jpg|1.00".toList, "c.jpg|0.95".toList,
          "---GROUP---".toList] := by
  have hd := areFilesSimilar_jpg.1
  have hs := areFilesSimilar_jpg.2
  have hx : findExactDuplicates pathHash [imageBJpg, imageCJpg] = [] := by decide
  have hf : filesForSimilarity [imageBJpg, imageCJpg] [] = [imageBJpg, imageCJpg] := by
    simp [filesForSimilarity, exactDupPaths]
  refine ⟨hd, findSimilarFiles_pair _ _ _ _ hs, (printSimilar_pair _ _ _ hs).1, by norm_num, ?_⟩
  rw [main_output _ _ _ _ (by decide) (by decide), if_pos (by decide)]
  show printExact (findExactDuplicates pathHash [imageBJpg, imageCJpg]) ++
    printSimilar (findSimilarFiles jpgEnv (filesForSimilarity [imageBJpg, imageCJpg]
      (findExactDuplicates pathHash [imageBJpg, imageCJpg]))) = _
  rw [hx, hf, (printSimilar_pair _ _ _ hs).2]
  decide

/-- Claim C17, amended. For two image records `b`, `c` whose hashes are three
bits apart, `findSimilarFiles` on `[b, c]` emits the group `[b (1), c (61/64)]`.
The average computed for the header is the mean over all members, the anchor
with its score 1 included: `(1 + (1 - 3/64)) / 2 = 1 - 3/128`, written as
`SIMILAR|0.98`; `c` is listed with `0.95`. -/
theorem main_similar_average (env : Env) (b c : FileInfo)
    (hb : b.type = "image") (hc : c.type = "image")
    (h1 : calculateImageHash env b.path ≠ 0) (h2 : calculateImageHash env c.path ≠ 0)
    (hd : differingBits (calculateImageHash env b.path) (calculateImageHash env c.path) = 3) :
    findSimilarFiles env [b, c]
      = [[{ b with similarity_score := 1 }, { c with similarity_score := 1 - 3 / 64 }]] ∧
    avgScore [{ b with similarity_score := 1 }, { c with similarity_score := 1 - 3 / 64 }]
      = (1 + (1 - 3 / 64)) / 2 ∧
    avgScore [{ b with similarity_score := 1 }, { c with similarity_score := 1 - 3 / 64 }]
      = 1 - 3 / 128 ∧
    printSimilar (findSimilarFiles env [b, c])
      = ["SIMILAR|0.98".toList, b.path ++ "|1.00".toList, c.path ++ "|0.95".toList,
          "---GROUP---".toList] := by
  have hs := areFilesSimilar_three_bits env b c hb hc h1 h2 hd
  have e : (1 : ℚ) - 3 / 64 = 61 / 64 := by norm_num
  rw [e]
  refine ⟨findSimilarFiles_pair _ _ _ _ hs, avgScore_pair _ _ _, ?_, (printSimilar_pair _ _ _ hs).2⟩
  rw [avgScore_pair]
  norm_num

/-- Witness of C17 (amended): `b.jpg` and `c.jpg`. -/
theorem main_similar_average_witness :
    imageBJpg.type = "image" ∧ imageCJpg.type = "image" ∧
    calculateImageHash jpgEnv imageBJpg.path ≠ 0 ∧
    calculateImageHash jpgEnv imageCJpg.path ≠ 0 ∧
    differingBits (calculateImageHash jpgEnv imageBJpg.path)
      (calculateImageHash jpgEnv imageCJpg.path) = 3 ∧
    avgScore [{ imageBJpg with similarity_score := 1 },
        { imageCJpg with similarity_score := 1 - 3 / 64 }] = 1 - 3 / 128 :=
  ⟨rfl, rfl, by show imageHash fourRowsImage ≠ 0; decide,
    by show imageHash oneRowImage ≠ 0; decide,
    by show differingBits (imageHash fourRowsImage) (imageHash oneRowImage) = 3; decide,
    (main_similar_average jpgEnv imageBJpg imageCJpg rfl rfl
      (by show imageHash fourRowsImage ≠ 0; decide)
      (by show imageHash oneRowImage ≠ 0; decide)
      (by show differingBits (imageHash fourRowsImage) (imageHash oneRowImage) = 3;
          decide)).2.2.1⟩

theorem filesForSimilarity_mixed (d : Str) :
    filesForSimilarity (mixedFiles d) (findExactDuplicates mixedHash (mixedFiles d))
      = [imageBJpg, imageCJpg] := by
  have e : mixedFiles d = [docATxt, imageBJpg, docACopy, imageCJpg] := rfl
  rw [e]
  have c1 : docATxt.path ∈ exactDupPaths
      (findExactDuplicates mixedHash [docATxt, imageBJpg, docACopy, imageCJpg]) := by decide
  have c2 : imageBJpg.path ∉ exactDupPaths
      (findExactDuplicates mixedHash [docATxt, imageBJpg, docACopy, imageCJpg]) := by decide
  have c3 : docACopy.path ∈ exactDupPaths
      (findExactDuplicates mixedHash [docATxt, imageBJpg, docACopy, imageCJpg]) := by decide
  have c4 : imageCJpg.path ∉ exactDupPaths
      (findExactDuplicates mixedHash [docATxt, imageBJpg, docACopy, imageCJpg]) := by decide
  unfold filesForSimilarity
  simp only [List.filter_cons, List.filter_nil, c1, c2, c3, c4, not_true_eq_false,
    not_false_eq_true, decide_True, decide_False, if_true, if_false, Bool.false_eq_true]

theorem main_mixed_output :
    (main jpgEnv mixedHash mixedFiles similarArgv).1
      = ["EXACT|1.0".toList, "a.txt".toList, "a_copy.txt".toList, "---GROUP---".toList,
          "SIMILAR|0.98".toList, "b.jpg|1.00".toList, "c.jpg|0.95".toList,
          "---GROUP---".toList] := by
  rw [main_output _ _ _ _ (by decide) (by decide), if_pos (by decide),
    filesForSimilarity_mixed, (printSimilar_pair _ _ _ areFilesSimilar_jpg.2).2]
  decide

/-- Witness of C16: a run with `--similar` over `a.txt`, `b.jpg`, `a_copy.txt`
and `c.jpg`, in which `a.txt` and `a_copy.txt` form an exact-duplicate group and
`b.jpg` and `c.jpg` a similar group. -/
theorem main_similar_avoids_exact_witness :
    3 ≤ similarArgv.length ∧ similarArgv.getD 2 [] = "--similar".toList ∧
    mixedFiles (similarArgv.getD 1 []) ≠ [] ∧
    (findExactDuplicates mixedHash (mixedFiles (similarArgv.getD 1 []))).map
        (fun e => (e.1, e.2.map (fun file => file.path)))
      = [("ab".toList, ["a.txt".toList, "a_copy.txt".toList])] ∧
    (main jpgEnv mixedHash mixedFiles similarArgv).1
      = ["EXACT|1.0".toList, "a.txt".toList, "a_copy.txt".toList, "---GROUP---".toList,
          "SIMILAR|0.98".toList, "b.jpg|1.00".toList, "c.jpg|0.95".toList,
          "---GROUP---".toList] ∧
    findSimilarFiles jpgEnv (filesForSimilarity (mixedFiles (similarArgv.getD 1 []))
        (findExactDuplicates mixedHash (mixedFiles (similarArgv.getD 1 []))))
      = [[{ imageBJpg with similarity_score := 1 },
          { imageCJpg with similarity_score := 61 / 64 }]] ∧
    ((main jpgEnv mixedHash mixedFiles similarArgv).1 =
      printExact (findExactDuplicates mixedHash (mixedFiles (similarArgv.getD 1 [])))
        ++ printSimilar (findSimilarFiles jpgEnv
            (filesForSimilarity (mixedFiles (similarArgv.getD 1 []))
              (findExactDuplicates mixedHash (mixedFiles (similarArgv.getD 1 []))))) ∧
    (∀ f ∈ filesForSimilarity (mixedFiles (similarArgv.getD 1 []))
        (findExactDuplicates mixedHash (mixedFiles (similarArgv.getD 1 []))),
      ∀ e ∈ findExactDuplicates mixedHash (mixedFiles (similarArgv.getD 1 [])),
        ∀ d ∈ e.2, f.path ≠ d.path) ∧
    (∀ group ∈ findSimilarFiles jpgEnv (filesForSimilarity (mixedFiles (similarArgv.getD 1 []))
        (findExactDuplicates mixedHash (mixedFiles (similarArgv.getD 1 [])))),
      ∀ m ∈ group, ∀ e ∈ findExactDuplicates mixedHash (mixedFiles (similarArgv.getD 1 [])),
        ∀ d ∈ e.2, m.path ≠ d.path)) :=
  ⟨by decide, by decide, by decide, by decide, main_mixed_output,
    by rw [filesForSimilarity_mixed]; exact findSimilarFiles_pair _ _ _ _ areFilesSimilar_jpg.2,
    main_similar_avoids_exact jpgEnv mixedHash mixedFiles similarArgv (by decide) (by decide)
      (by decide)⟩

/-! ## Array bounds of the downsampling loop -/

end PyMediaDownloader
